import Mathlib

/-!
# ContentGeneration.jsx: generation session and export handlers

A shallow embedding of the React component
`frontend/src/components/ContentGeneration.jsx`.

* The component state (the five `useState` cells) is the record `State`.
* Everything a handler does is a list of primitive commands (`Cmd`): a call of
  one of the state setters, or an action on the outside world (`Effect`): an
  `axios.post`, a file download, an `alert`, a `console.error`.  Commands are
  executed in source order by `run`.
* An `await axios.post(..)` splits a handler in two segments: the commands up
  to and including the post, and the commands that run once the request has
  settled.  A handler without an `await` (`handleExportJSON`) is one segment.
  The requests that were posted and have not settled yet are kept in
  `Sys.inFlight`.
* Values the environment decides (the response of the service, `Date.now()`)
  are arguments of the handler.
* React queues the updates of the setter calls of a segment and applies them,
  in call order, when the segment ends (the handler yields at an `await`, or
  returns); the export flags are set by functional updates (`prev => ..`),
  which act on the value the queue has produced so far.  The states of the
  component, the ones that are rendered and that a later event meets, are
  therefore the states at the end of a segment: `step`, `reach` and `commits`
  produce these and no others.  Inside a segment `exec` keeps in `Sys.st` the
  value that the updates queued so far give to the state the segment started
  in: `run s (cmds.take k)` tells which updates the first `k` commands have
  queued and which effects they have performed; it is a state of the component
  only where a segment ends.

Typing of the untyped source.  The generation payload is a JSON object (the
service contract is `{ data: GeneratedResult }`), so a stored result is either
`null` (`none`) or an object (`some r`); objects are truthy in JavaScript, so
`!generatedContent` is the test for `none`.  Strings keep their JavaScript
truthiness: the empty string is falsy.
-/

namespace ContentGeneration

/-! ## Data model -/

/-- The `style_guide` record of the form (source lines 25-28). -/
structure StyleGuide where
  tone : String
  length : String
deriving DecidableEq, Repr

/-- The `formData` state cell (source lines 22-29). -/
structure FormData where
  topic : String
  target_audience : String
  style_guide : StyleGuide
deriving DecidableEq, Repr

/-- The `final_decision` object of a generation payload.  Every field may be
missing.  `final_score` carries the number as it is written in the JSON text
of the response; the component computes with the double that parsing gives
for it (`toDouble`). -/
structure FinalDecision where
  final_decision : Option String
  summary : Option (List String)
  final_score : Option ℚ
deriving DecidableEq, Repr

/-- The generation payload `response.data.data`, as far as the component reads
it: `content`, `text_content` and `final_decision`, each possibly missing. -/
structure GeneratedResult where
  content : Option String
  text_content : Option String
  final_decision : Option FinalDecision
deriving DecidableEq, Repr

/-- The three export formats, one per export handler and per key of
`exportLoading`. -/
inductive Format where
  | pdf
  | word
  | json
deriving DecidableEq, Repr

/-- The `exportLoading` state cell (source lines 34-38). -/
structure ExportLoading where
  pdf : Bool
  word : Bool
  json : Bool
deriving DecidableEq, Repr

/-- Value of `exportLoading[f]`. -/
def ExportLoading.get (l : ExportLoading) : Format → Bool
  | .pdf => l.pdf
  | .word => l.word
  | .json => l.json

/-- The object `{ ...prev, [f]: b }` of the functional updates passed to
`setExportLoading` (source lines 85, 102, 109, 128, 135, 149). -/
def ExportLoading.set (l : ExportLoading) (f : Format) (b : Bool) : ExportLoading :=
  match f with
  | .pdf => { l with pdf := b }
  | .word => { l with word := b }
  | .json => { l with json := b }

/-- The React state of the component (source lines 22-38). -/
structure State where
  formData : FormData
  isGenerating : Bool
  generatedContent : Option GeneratedResult
  error : Option String
  exportLoading : ExportLoading
deriving DecidableEq, Repr

/-- The initial values given to `useState` (source lines 22-38). -/
def State.initial : State :=
  { formData := { topic := "", target_audience := "general",
                  style_guide := { tone := "professional", length := "medium" } }
    isGenerating := false
    generatedContent := none
    error := none
    exportLoading := { pdf := false, word := false, json := false } }

/-! ## Requests, effects and commands -/

/-- The `requestData` object built in `handleSubmit` (source lines 66-71). -/
structure RequestData where
  type : String
  topic : String
  target_audience : String
  style_guide : StyleGuide
deriving DecidableEq, Repr

/-- Body of an `axios.post`: the generation request, or the stored result
(sent unchanged by the pdf and word exports). -/
inductive Body where
  | generate (requestData : RequestData)
  | result (generatedContent : GeneratedResult)
deriving DecidableEq, Repr

/-- One `axios.post(url, body)`. -/
structure Request where
  url : String
  body : Body
deriving DecidableEq, Repr

/-- Content of a `Blob`: the bytes of a response, or the text
`JSON.stringify(r, null, indent)` kept symbolic. -/
inductive Content where
  | bytes (data : String)
  | stringify (r : GeneratedResult) (indent : Nat)
deriving DecidableEq, Repr

/-- A file handed to the browser: the blob, its content type, and the
`download` name of the link that is clicked. -/
structure File where
  content : Content
  type : String
  name : String
deriving DecidableEq, Repr

/-- Actions of a handler on the outside world. -/
inductive Effect where
  | post (request : Request)
  | download (file : File)
  | alert (message : String)
  | consoleError (message : String)
deriving DecidableEq, Repr

/-- Primitive steps of a handler: the four setters used by the handlers, an
effect, and the point where an awaited request has settled. -/
inductive Cmd where
  | setIsGenerating (b : Bool)
  | setError (e : Option String)
  | setGeneratedContent (c : Option GeneratedResult)
  | setExportLoading (f : Format) (b : Bool)
  | perform (e : Effect)
  | awaitSettled (request : Request)
deriving DecidableEq, Repr

/-- The component together with its surroundings: the React state, the log
of effects performed so far (oldest first), and the posted requests that have
not settled yet (oldest first). -/
structure Sys where
  st : State
  log : List Effect
  inFlight : List Request
deriving DecidableEq, Repr

/-- The freshly mounted component: nothing logged, nothing in flight. -/
def Sys.initial : Sys := { st := State.initial, log := [], inFlight := [] }

/-- Execute one command. -/
def exec (s : Sys) : Cmd → Sys
  | .setIsGenerating b => { s with st := { s.st with isGenerating := b } }
  | .setError e => { s with st := { s.st with error := e } }
  | .setGeneratedContent c => { s with st := { s.st with generatedContent := c } }
  | .setExportLoading f b =>
      { s with st := { s.st with exportLoading := s.st.exportLoading.set f b } }
  | .perform (.post r) => { s with log := s.log ++ [.post r], inFlight := s.inFlight ++ [r] }
  | .perform e => { s with log := s.log ++ [e] }
  | .awaitSettled r => { s with inFlight := s.inFlight.erase r }

/-- Execute a list of commands in order. -/
def run (s : Sys) (cmds : List Cmd) : Sys := cmds.foldl exec s

/-- The requests posted in a log, in order. -/
def posts : List Effect → List Request
  | [] => []
  | .post r :: es => r :: posts es
  | _ :: es => posts es

/-- The files downloaded in a log, in order. -/
def downloads : List Effect → List File
  | [] => []
  | .download f :: es => f :: downloads es
  | _ :: es => downloads es

/-! ## JavaScript helpers -/

/-- JavaScript truthiness of a value that is `undefined`/`null` (`none`) or a
string: only a non-empty string is truthy. -/
def truthy : Option String → Bool
  | some v => v != ""
  | none => false

/-- The JavaScript expression `a || b` on such values: `a` if it is truthy,
else `b`. -/
def jsOr (a b : Option String) : Option String :=
  if truthy a then a else b

/-! ## handleSubmit (source lines 59-80) -/

/-- A response body of the generation endpoint: an object whose `data` field
holds the payload (`none`: the field is missing or `null`). -/
structure ResponseBody where
  data : Option GeneratedResult
deriving DecidableEq, Repr

/-- The value of a fulfilled `axios.post`: `response.data` is the parsed
body. -/
structure AxiosResponse where
  data : ResponseBody
deriving DecidableEq, Repr

/-- Body of an error response, with its optional `detail` message. -/
structure ErrorBody where
  detail : Option String
deriving DecidableEq, Repr

/-- The `response` of a rejected request, with its optional body. -/
structure ErrorResponse where
  data : Option ErrorBody
deriving DecidableEq, Repr

/-- The error thrown by a rejected `axios.post`; `response` is missing when
the service could not be reached. -/
structure AxiosError where
  response : Option ErrorResponse
deriving DecidableEq, Repr

/-- What `await axios.post(..)` of `handleSubmit` produces: a response, or a
thrown error. -/
inductive GenerateOutcome where
  | ok (response : AxiosResponse)
  | failed (err : AxiosError)
deriving DecidableEq, Repr

/-- The endpoint of `handleSubmit` (source line 73). -/
def generateUrl : String := "http://localhost:8000/generate-and-govern"

/-- The message used when the error carries no usable `detail`
(source line 76). -/
def fallbackMessage : String := "An error occurred while generating content"

/-- The object literal of source lines 66-71. -/
def requestData (formData : FormData) : RequestData :=
  { type := "text"
    topic := formData.topic
    target_audience := formData.target_audience
    style_guide := formData.style_guide }

/-- The request posted by `handleSubmit` for the given form data. -/
def generateRequest (formData : FormData) : Request :=
  { url := generateUrl, body := .generate (requestData formData) }

/-- The optional chain `err.response?.data?.detail` (source line 76). -/
def errDetail (err : AxiosError) : Option String :=
  (err.response.bind (·.data)).bind (·.detail)

/-- The argument of `setError` in the catch block (source line 76):
`err.response?.data?.detail || 'An error occurred while generating content'`. -/
def errorMessage (err : AxiosError) : Option String :=
  jsOr (errDetail err) (some fallbackMessage)

/-- First segment of `handleSubmit` (source lines 60-73): the three setter
calls, then the post.  `formData` is the value in the closure of the handler.
`e.preventDefault()` only stops the page navigation of the browser and is not
represented. -/
def handleSubmitBegin (formData : FormData) : List Cmd :=
  [ .setIsGenerating true,
    .setError none,
    .setGeneratedContent none,
    .perform (.post (generateRequest formData)) ]

/-- Second segment of `handleSubmit` (source lines 73-79), run when the
awaited request has settled: the rest of the try block or the catch block,
then the finally block. -/
def handleSubmitResume (request : Request) : GenerateOutcome → List Cmd
  | .ok response =>
      [ .awaitSettled request, .setGeneratedContent response.data.data, .setIsGenerating false ]
  | .failed err =>
      [ .awaitSettled request, .setError (errorMessage err), .setIsGenerating false ]

/-- One whole call of `handleSubmit` whose request settles with outcome `o`
and with nothing else happening in between. -/
def handleSubmit (formData : FormData) (o : GenerateOutcome) : List Cmd :=
  handleSubmitBegin formData ++ handleSubmitResume (generateRequest formData) o

/-! ## Export handlers (source lines 82-151) -/

/-- What the try block of an export handler produces.  `ok data now`: nothing
was thrown; `data` are the bytes of the response (unused by the json export,
which posts nothing) and `now` is the value of `Date.now()`.  `failed`: the
post was rejected, or the serialisation or the blob construction threw; the
remaining browser calls of the try block do not throw. -/
inductive ExportOutcome where
  | ok (data : String) (now : Nat)
  | failed
deriving DecidableEq, Repr

/-- The endpoint of `handleExportPDF` (source line 87). -/
def pdfUrl : String := "http://localhost:8000/export/pdf"

/-- The endpoint of `handleExportWord` (source line 111). -/
def wordUrl : String := "http://localhost:8000/export/word"

/-- The request posted by `handleExportPDF`: the stored result as the body. -/
def pdfRequest (r : GeneratedResult) : Request := { url := pdfUrl, body := .result r }

/-- The request posted by `handleExportWord`: the stored result as the body. -/
def wordRequest (r : GeneratedResult) : Request := { url := wordUrl, body := .result r }

/-- First segment of `handleExportPDF` once the guard of line 83 has passed
(source lines 85-89). -/
def handleExportPDFBegin (r : GeneratedResult) : List Cmd :=
  [ .setExportLoading .pdf true, .perform (.post (pdfRequest r)) ]

/-- Second segment of `handleExportPDF` (source lines 91-103). -/
def handleExportPDFResume (r : GeneratedResult) : ExportOutcome → List Cmd
  | .ok data now =>
      [ .awaitSettled (pdfRequest r),
        .perform (.download { content := .bytes data, type := "application/pdf",
                              name := "content_report_" ++ toString now ++ ".pdf" }),
        .setExportLoading .pdf false ]
  | .failed =>
      [ .awaitSettled (pdfRequest r),
        .perform (.consoleError "PDF export failed:"),
        .perform (.alert "Failed to export PDF. Please try again."),
        .setExportLoading .pdf false ]

/-- One whole call of `handleExportPDF` (source lines 82-104);
`generatedContent` is the value in the closure of the handler. -/
def handleExportPDF (generatedContent : Option GeneratedResult) (o : ExportOutcome) : List Cmd :=
  match generatedContent with
  | none => []
  | some r => handleExportPDFBegin r ++ handleExportPDFResume r o

/-- First segment of `handleExportWord` once the guard of line 107 has passed
(source lines 109-113). -/
def handleExportWordBegin (r : GeneratedResult) : List Cmd :=
  [ .setExportLoading .word true, .perform (.post (wordRequest r)) ]

/-- Second segment of `handleExportWord` (source lines 115-129). -/
def handleExportWordResume (r : GeneratedResult) : ExportOutcome → List Cmd
  | .ok data now =>
      [ .awaitSettled (wordRequest r),
        .perform (.download
          { content := .bytes data,
            type := "application/vnd.openxmlformats-officedocument.wordprocessingml.document",
            name := "content_report_" ++ toString now ++ ".docx" }),
        .setExportLoading .word false ]
  | .failed =>
      [ .awaitSettled (wordRequest r),
        .perform (.consoleError "Word export failed:"),
        .perform (.alert "Failed to export Word document. Please try again."),
        .setExportLoading .word false ]

/-- One whole call of `handleExportWord` (source lines 106-130). -/
def handleExportWord (generatedContent : Option GeneratedResult) (o : ExportOutcome) : List Cmd :=
  match generatedContent with
  | none => []
  | some r => handleExportWordBegin r ++ handleExportWordResume r o

/-- One whole call of `handleExportJSON` (source lines 132-151).  The handler
is declared `async` but contains no `await`: its body runs to its end within
the click, as a single segment, so its two calls of `setExportLoading` are
queued and applied together when it returns.  The json flag is set in no
state of the component (see `exportSegments` and `commits`); the command list
records the calls in source order. -/
def handleExportJSON (generatedContent : Option GeneratedResult) (o : ExportOutcome) : List Cmd :=
  match generatedContent with
  | none => []
  | some r =>
      match o with
      | .ok _ now =>
          [ .setExportLoading .json true,
            .perform (.download { content := .stringify r 2, type := "application/json",
                                  name := "content_analysis_" ++ toString now ++ ".json" }),
            .setExportLoading .json false ]
      | .failed =>
          [ .setExportLoading .json true,
            .perform (.consoleError "JSON export failed:"),
            .perform (.alert "Failed to export JSON. Please try again."),
            .setExportLoading .json false ]

/-- The export handler wired to the button of each format (source lines 543,
571, 601). -/
def exportHandler : Format → Option GeneratedResult → ExportOutcome → List Cmd
  | .pdf => handleExportPDF
  | .word => handleExportWord
  | .json => handleExportJSON

/-- The segments of the export handler of `f` for a stored result `r`: the
command lists between two points where the handler gives control back to
React.  `handleExportPDF` and `handleExportWord` do so at their `await` and
when they return, `handleExportJSON` only when it returns. -/
def exportSegments (f : Format) (r : GeneratedResult) (o : ExportOutcome) : List (List Cmd) :=
  match f with
  | .pdf => [handleExportPDFBegin r, handleExportPDFResume r o]
  | .word => [handleExportWordBegin r, handleExportWordResume r o]
  | .json => [handleExportJSON (some r) o]

/-- The states React commits while the given segments run one after the
other from `s`, nothing else happening in between: the state at the end of
each segment, in order. -/
def commits (s : Sys) : List (List Cmd) → List Sys
  | [] => []
  | segment :: segments => run s segment :: commits (run s segment) segments

/-! ## What is rendered (source lines 172-653) -/

/-- The "Ready to Generate" placeholder is rendered
(source line 393: `!generatedContent && !isGenerating`). -/
def showsReady (st : State) : Bool := !st.generatedContent.isSome && !st.isGenerating

/-- The "AI Working..." spinner is rendered (source line 408: `isGenerating`). -/
def showsWorking (st : State) : Bool := st.isGenerating

/-- The result panel is rendered (source line 424: `generatedContent`). -/
def showsResult (st : State) : Bool := st.generatedContent.isSome

/-- The "Generation Failed" box is rendered (source line 364: `error`). -/
def showsError (st : State) : Bool := truthy st.error

/-- The expression `generatedContent.content || generatedContent.text_content`
of source lines 456 and 467. -/
def bodyText (r : GeneratedResult) : Option String := jsOr r.content r.text_content

/-- The text shown in the "Generated Content" paragraph (source lines 424,
456-473): none when the result panel or the section is not rendered. -/
def displayedBody (st : State) : Option String :=
  match st.generatedContent with
  | none => none
  | some r => if truthy (bodyText r) then bodyText r else none

/-- The session phases of the specification. -/
inductive Phase where
  | Idle
  | Submitting
  | Succeeded
  | Failed
deriving DecidableEq, Repr

/-- The phase the component is in.  The source stores no phase; it is read off
the three session cells the way the render distinguishes them: the spinner
(`isGenerating`), the result panel (`generatedContent`), the failure box
(`error`), else the placeholder. -/
def phase (st : State) : Phase :=
  if showsWorking st then .Submitting
  else if showsResult st then .Succeeded
  else if showsError st then .Failed
  else .Idle

/-! ## The form and the buttons -/

/-- The browser fires the `onSubmit` of the form (source line 219) only when
the submit button is not disabled (source line 330: `disabled={isGenerating}`)
and the `required` topic input (source line 234) is not empty. -/
def formSubmits (st : State) : Bool := !st.isGenerating && st.formData.topic != ""

/-- The export button of format `f` is rendered and enabled: the buttons live
in the result panel (source line 424), those of pdf and word inside
`generatedContent.final_decision &&` (source line 540), and each is disabled
while its own flag is set (source lines 544, 572, 602). -/
def exportClickable (st : State) (f : Format) : Bool :=
  match st.generatedContent with
  | none => false
  | some r => !st.exportLoading.get f && (f == .json || r.final_decision.isSome)

/-- The commands an export handler executes before it first suspends: all of
`handleExportJSON`, the first segment of the two others. -/
def exportHandlerBegin (f : Format) (generatedContent : Option GeneratedResult)
    (o : ExportOutcome) : List Cmd :=
  match generatedContent with
  | none => []
  | some r =>
      match f with
      | .pdf => handleExportPDFBegin r
      | .word => handleExportWordBegin r
      | .json => handleExportJSON (some r) o

/-- What can happen to the mounted component.  `editForm`: the user has
changed the form (`handleInputChange` calls only `setFormData`).
`submitForm`: the user submits the form.  `settleGenerate i o`: the `i`-th
request in flight, a generation request, settles with `o`.  `clickExport f o`:
the user clicks the export button of `f` (`o` is used by the json export
only, which runs to its end).  `settleExport i o`: the `i`-th request in
flight, an export request, settles with `o`. -/
inductive Event where
  | editForm (formData : FormData)
  | submitForm
  | settleGenerate (i : Nat) (o : GenerateOutcome)
  | clickExport (f : Format) (o : ExportOutcome)
  | settleExport (i : Nat) (o : ExportOutcome)
deriving DecidableEq, Repr

/-- The continuation resumed when the generation request `request` settles. -/
def resumeGenerate (s : Sys) (request : Request) (o : GenerateOutcome) : Sys :=
  if request.url = generateUrl then run s (handleSubmitResume request o) else s

/-- The continuation resumed when the export request `request` settles. -/
def resumeExport (s : Sys) (request : Request) (o : ExportOutcome) : Sys :=
  match request.body with
  | .result r =>
      if request.url = pdfUrl then run s (handleExportPDFResume r o)
      else if request.url = wordUrl then run s (handleExportWordResume r o)
      else s
  | .generate _ => s

/-- One event of a session driven through the rendered form and buttons. -/
def step (s : Sys) : Event → Sys
  | .editForm formData => { s with st := { s.st with formData := formData } }
  | .submitForm =>
      if formSubmits s.st then run s (handleSubmitBegin s.st.formData) else s
  | .settleGenerate i o =>
      match s.inFlight[i]? with
      | some request => resumeGenerate s request o
      | none => s
  | .clickExport f o =>
      if exportClickable s.st f then run s (exportHandlerBegin f s.st.generatedContent o) else s
  | .settleExport i o =>
      match s.inFlight[i]? with
      | some request => resumeExport s request o
      | none => s

/-- The system after a sequence of events, starting from the freshly mounted
component. -/
def reach (events : List Event) : Sys := events.foldl step Sys.initial

/-- The generation requests in flight. -/
def inFlightGenerate (s : Sys) : List Request :=
  s.inFlight.filter (fun r => r.url == generateUrl)

/-- The values offered by the audience select (source lines 255-260). -/
def audienceOptions : List String :=
  ["general", "tech_professionals", "business_leaders", "healthcare_professionals",
   "students", "marketers"]

/-- The values offered by the tone select (source lines 287-292). -/
def toneOptions : List String :=
  ["professional", "casual", "friendly", "authoritative", "creative", "conversational"]

/-- The values offered by the length select (source lines 314-316). -/
def lengthOptions : List String := ["short", "medium", "long"]

/-- A form the user can have filled in: a non-empty topic and one of the
offered values in each select. -/
def validForm (formData : FormData) : Prop :=
  formData.topic ≠ "" ∧ formData.target_audience ∈ audienceOptions ∧
    formData.style_guide.tone ∈ toneOptions ∧ formData.style_guide.length ∈ lengthOptions

instance (formData : FormData) : Decidable (validForm formData) := by
  unfold validForm; infer_instance

/-! ## The result panel (source lines 153-170 and 424-530)

JavaScript numbers are IEEE 754 doubles.  A finite double is a rational, so
numbers are values of `ℚ`; parsing a JSON number and multiplying two doubles
round the exact result to the nearest double, the one with the even
significand on a tie (`toDouble`, `fmul`).  Comparisons, `Math.floor` and
`toFixed` act on the exact value of a double.  Results beyond the range of
the doubles, which JavaScript turns into `Infinity`, are not represented: they
keep their value (their colour class and stars are those of `Infinity`). -/

/-- The exponent `e` of a positive natural number: `2 ^ e ≤ n < 2 ^ (e + 1)`;
0 for 0.  The first argument bounds the number of halvings. -/
def log2Fuel : Nat → Nat → Nat
  | 0, _ => 0
  | fuel + 1, n => if n < 2 then 0 else log2Fuel fuel (n / 2) + 1

/-- The position of the highest bit of a natural number. -/
def natLog2 (n : Nat) : Nat := log2Fuel n n

/-- The power `2 ^ e` for an integer exponent. -/
def pow2 (e : ℤ) : ℚ :=
  if 0 ≤ e then ((2 ^ e.toNat : ℕ) : ℚ) else 1 / ((2 ^ (-e).toNat : ℕ) : ℚ)

/-- The binary exponent of a non-zero rational: the `e` with
`2 ^ e ≤ |x| < 2 ^ (e + 1)`.  The difference of the bit positions of numerator
and denominator is `e` or `e + 1`. -/
def floorLog2 (x : ℚ) : ℤ :=
  let e : ℤ := (natLog2 x.num.natAbs : ℤ) - (natLog2 x.den : ℤ)
  if pow2 e ≤ |x| then e else e - 1

/-- The integer nearest to `m`, the even one on a tie. -/
def roundHalfEven (m : ℚ) : ℤ :=
  let f := Rat.floor m
  if m - f < 1 / 2 then f
  else if 1 / 2 < m - f then f + 1
  else if f % 2 = 0 then f else f + 1

/-- The double nearest to `x` (round to nearest, ties to even): a multiple of
the unit in the last place of the binade of `x`, with 53 significant bits for
a normal number and the fixed unit `2 ^ -1074` below `2 ^ -1022`. -/
def toDouble (x : ℚ) : ℚ :=
  if x = 0 then 0
  else
    let ulp := pow2 (max (floorLog2 x) (-1022) - 52)
    (roundHalfEven (x / ulp) : ℚ) * ulp

/-- The JavaScript product `x * y` of two doubles. -/
def fmul (x y : ℚ) : ℚ := toDouble (x * y)

/-- The classes returned for "Approved" (source line 156). -/
def emeraldClasses : String := "text-emerald-700 bg-emerald-100 border-emerald-200"

/-- The classes returned for "Needs Revision" (source line 158). -/
def amberClasses : String := "text-amber-700 bg-amber-100 border-amber-200"

/-- The classes returned for "Rejected" (source line 160). -/
def roseClasses : String := "text-rose-700 bg-rose-100 border-rose-200"

/-- The classes of the `default` branch (source line 162). -/
def slateClasses : String := "text-slate-700 bg-slate-100 border-slate-200"

/-- The function `getDecisionColor` (source lines 153-164): a `switch` on the
decision, which may be `undefined` (`none`). -/
def getDecisionColor (decision : Option String) : String :=
  if decision = some "Approved" then emeraldClasses
  else if decision = some "Needs Revision" then amberClasses
  else if decision = some "Rejected" then roseClasses
  else slateClasses

/-- The function `getScoreColor` (source lines 166-170). -/
def getScoreColor (score : ℚ) : String :=
  if score ≥ 80 then "text-emerald-600 bg-emerald-50"
  else if score ≥ 60 then "text-amber-600 bg-amber-50"
  else "text-rose-600 bg-rose-50"

/-- The error a render can throw: a property is read from `undefined`. -/
inductive JsError where
  | typeError (message : String)
deriving DecidableEq, Repr

/-- The value `x` in a property access `x.p`: JavaScript throws a TypeError
when `x` is `undefined`. -/
def deref {α : Type} (what : String) : Option α → Except JsError α
  | some a => .ok a
  | none => .error (.typeError ("Cannot read properties of undefined, reading " ++ what))

/-- The "Content Review Status" box (source lines 428-452): the classes of the
box and of the badge, whether the check icon is shown (else the exclamation
icon), and the text of the badge. -/
structure DecisionSection where
  className : String
  approvedIcon : Bool
  label : Option String
deriving DecidableEq, Repr

/-- One numbered point of the "Review Analysis" box (source lines 485-490). -/
structure SummaryPoint where
  number : Nat
  text : String
deriving DecidableEq, Repr

/-- The "Quality Assessment" box (source lines 499-529): its classes, the
percentage text, and for each of the five stars whether it is filled. -/
structure ScoreSection where
  className : String
  percent : String
  stars : List Bool
deriving DecidableEq, Repr

/-- What `{generatedContent.final_decision?.final_score && (..)}` renders:
nothing for `undefined`, the number itself when it is falsy (React renders a
number, also 0, as text), the box otherwise. -/
inductive ScoreRender where
  | nothing
  | number (value : ℚ)
  | box (section_ : ScoreSection)
deriving DecidableEq, Repr

/-- The method `toFixed(1)` on a double of absolute value below 10^21: the
multiple of one tenth nearest to its exact value, the larger one on a tie, in
decimal notation. -/
def toFixed1 (x : ℚ) : String :=
  let tenths : Nat := (Rat.floor (|x| * 10 + 1 / 2)).toNat
  (if x < 0 then "-" else "") ++ toString (tenths / 10) ++ "." ++ toString (tenths % 10)

/-- The five stars of source lines 515-524: star `i` is filled when
`i < Math.floor(final_score * 5)`, a product of doubles. -/
def starRow (score : ℚ) : List Bool :=
  (List.range 5).map (fun i => decide ((i : ℤ) < Rat.floor (fmul (toDouble score) 5)))

/-- The number of filled stars. -/
def filledStars (score : ℚ) : Nat := (starRow score).count true

/-- The "Quality Assessment" box for the score written `score` in the
response (source lines 504, 512, 519): the classes
`getScoreColor(final_score * 100)`, the text `(final_score * 100).toFixed(1)`
followed by "%", and the stars; every product is a product of doubles. -/
def scoreSection (score : ℚ) : ScoreSection :=
  { className := getScoreColor (fmul (toDouble score) 100)
    percent := toFixed1 (fmul (toDouble score) 100) ++ "%"
    stars := starRow score }

/-- The `map` of source lines 484-491: the point at index `index` gets the
number `index + 1` and the text of the finding. -/
def summaryPoints (summary : List String) : List SummaryPoint :=
  summary.mapIdx (fun index point => { number := index + 1, text := point })

/-- The body section (source lines 456-473): shown, with the text
`content || text_content`, when that text is truthy. -/
def bodySection (r : GeneratedResult) : Option String :=
  if truthy (bodyText r) then bodyText r else none

/-- What the score guard of source line 498 renders for a value of
`final_decision?.final_score`: a number is falsy when it is 0. -/
def scoreRender : Option ℚ → ScoreRender
  | none => .nothing
  | some v => if toDouble v = 0 then .number (toDouble v) else .box (scoreSection v)

/-- The final decision section (source lines 427-453).  Inside the guard the
source reads `generatedContent.final_decision.final_decision`. -/
def renderDecision (r : GeneratedResult) : Except JsError (Option DecisionSection) :=
  if r.final_decision.isSome then do
    let fd ← deref "final_decision" r.final_decision
    pure (some { className := getDecisionColor fd.final_decision
                 approvedIcon := fd.final_decision == some "Approved"
                 label := fd.final_decision })
  else pure none

/-- The review summary section (source lines 476-495).  The guard is the
optional chain `final_decision?.summary` (an array, also an empty one, is
truthy); inside it the source reads `generatedContent.final_decision.summary`
and maps over it. -/
def renderSummary (r : GeneratedResult) : Except JsError (Option (List SummaryPoint)) :=
  match r.final_decision.bind (·.summary) with
  | none => pure none
  | some _ => do
      let fd ← deref "final_decision" r.final_decision
      let summary ← deref "summary" fd.summary
      pure (some (summaryPoints summary))

/-- The quality score section (source lines 498-530).  The guard is the
optional chain `final_decision?.final_score`; inside it the source reads
`generatedContent.final_decision.final_score` again, which is the value `v`
of the guard. -/
def renderScore (r : GeneratedResult) : Except JsError ScoreRender :=
  match r.final_decision.bind (·.final_score) with
  | none => pure .nothing
  | some v =>
      if toDouble v = 0 then pure (.number (toDouble v))
      else do
        let _ ← deref "final_decision" r.final_decision
        pure (.box (scoreSection v))

/-- The four data sections of the result panel. -/
structure ResultView where
  decision : Option DecisionSection
  body : Option String
  summary : Option (List SummaryPoint)
  score : ScoreRender
deriving DecidableEq, Repr

/-- The data sections of the result panel for a stored result, in source
order (source lines 425-530). -/
def renderResult (r : GeneratedResult) : Except JsError ResultView := do
  let decision ← renderDecision r
  let summary ← renderSummary r
  let score ← renderScore r
  pure { decision := decision, body := bodySection r, summary := summary, score := score }

/-- The result panel (source line 424): rendered only for a stored result. -/
def renderPanel (st : State) : Except JsError (Option ResultView) :=
  match st.generatedContent with
  | none => pure none
  | some r => do
      let view ← renderResult r
      pure (some view)

/-! ## handleInputChange (source lines 40-57)

The updater that `handleInputChange` passes to `setFormData` writes computed
keys, so it is defined on objects with arbitrary keys.  An object is the list
of its own properties; only lookups are used, so the order of the keys plays
no role. -/

/-- A value held in `formData`: a string, or an object whose properties are
strings.  The updater keeps `formData` within these values: it writes the
string `value`, or an object made of string properties. -/
inductive FormValue where
  | text (value : String)
  | group (props : List (String × String))
deriving DecidableEq, Repr

/-- The object `formData` with arbitrary keys: its own properties. -/
abbrev FormObject := List (String × FormValue)

/-- The property read `object[key]`, `none` for `undefined`. -/
def propGet {β : Type} (key : String) : List (String × β) → Option β
  | [] => none
  | (k, v) :: rest => if k = key then some v else propGet key rest

/-- The object `{ ...object, [key]: value }`. -/
def propSet {β : Type} (key : String) (value : β) : List (String × β) → List (String × β)
  | [] => [(key, value)]
  | (k, v) :: rest =>
      if k = key then (key, value) :: rest else (k, v) :: propSet key value rest

/-- The properties copied by the spread `{ ...x }` of a property value:
nothing for `undefined`, the properties of an object, and for a string its
characters under their indices (characters outside the Basic Multilingual
Plane, which JavaScript splits in two, are not distinguished). -/
def spreadProps : Option FormValue → List (String × String)
  | none => []
  | some (.group props) => props
  | some (.text value) => value.data.mapIdx (fun i c => (toString i, String.singleton c))

/-- The parts of `name.split('.')`, on the characters of the name. -/
def splitOnDot : List Char → List (List Char)
  | [] => [[]]
  | c :: cs =>
      if c = '.' then [] :: splitOnDot cs
      else
        match splitOnDot cs with
        | part :: parts => (c :: part) :: parts
        | [] => [[c]]

/-- The updater that `handleInputChange` passes to `setFormData` for the
target name `name` and value `value` (source lines 41-56).  The destructuring
`[parent, child]` takes the first two parts of the split; a missing part would
be `undefined`, which as a computed key is the string "undefined". -/
def handleInputChange (name value : String) (prev : FormObject) : FormObject :=
  if '.' ∈ name.data then
    let parts := (splitOnDot name.data).map String.mk
    let parent := parts[0]?.getD "undefined"
    let child := parts[1]?.getD "undefined"
    propSet parent (.group (propSet child value (spreadProps (propGet parent prev)))) prev
  else
    propSet name (.text value) prev

/-- The form record as the object it stands for (source lines 22-29). -/
def FormData.toObject (formData : FormData) : FormObject :=
  [ ("topic", .text formData.topic),
    ("target_audience", .text formData.target_audience),
    ("style_guide", .group [("tone", formData.style_guide.tone),
                            ("length", formData.style_guide.length)]) ]

/-- The four inputs of the form whose `onChange` is `handleInputChange`
(source lines 231, 252, 284, 311). -/
inductive Input where
  | topic
  | target_audience
  | tone
  | length
deriving DecidableEq, Repr

/-- The `name` attribute of an input (source lines 229, 250, 282, 309). -/
def Input.name : Input → String
  | .topic => "topic"
  | .target_audience => "target_audience"
  | .tone => "style_guide.tone"
  | .length => "style_guide.length"

/-- The form record with the field of one input replaced. -/
def FormData.withInput (formData : FormData) (input : Input) (value : String) : FormData :=
  match input with
  | .topic => { formData with topic := value }
  | .target_audience => { formData with target_audience := value }
  | .tone => { formData with style_guide := { formData.style_guide with tone := value } }
  | .length => { formData with style_guide := { formData.style_guide with length := value } }

/-- The handler `handleInputChange` fired by an input of the form with a new
value.  Its only statement that touches the state is the call of
`setFormData`; on the form record the updater is `FormData.withInput`. -/
def inputChanged (s : Sys) (input : Input) (value : String) : Sys :=
  step s (.editForm (s.st.formData.withInput input value))

/-- The order of the three classes of `getScoreColor`: rose below amber below
emerald. -/
def scoreRank (className : String) : Nat :=
  if className = "text-emerald-600 bg-emerald-50" then 2
  else if className = "text-amber-600 bg-amber-50" then 1
  else 0

/-! ## Specification predicates and sample values -/

/-- The session invariant of a form-driven session: one generation request is
in flight while `isGenerating` is set, none otherwise. -/
def sessionInv (s : Sys) : Prop :=
  (inFlightGenerate s).length = s.st.isGenerating.toNat

/-- A form with the topic "a" and the default selections. -/
def formA : FormData := { State.initial.formData with topic := "a" }

/-- A form with the topic "b" and the default selections. -/
def formB : FormData := { State.initial.formData with topic := "b" }

/-- The payload `{ content: "X" }`. -/
def resultX : GeneratedResult := { content := some "X", text_content := none, final_decision := none }

/-- The mounted component with the topic "a" typed in. -/
def sysA : Sys := step Sys.initial (.editForm formA)

/-- What an export handler of another format must leave alone: the job flag
of `g`, the stored result, the stored error, `isGenerating`, and with them
the phase. -/
def untouched (g : Format) (t t' : Sys) : Prop :=
  t'.st.exportLoading.get g = t.st.exportLoading.get g ∧
  t'.st.generatedContent = t.st.generatedContent ∧
  t'.st.error = t.st.error ∧
  t'.st.isGenerating = t.st.isGenerating ∧
  phase t'.st = phase t.st

/-- The component showing the payload `{ content: "X" }`, no export running. -/
def sysX : Sys :=
  { st := { State.initial with formData := formA, generatedContent := some resultX }
    log := [.post (generateRequest formA)]
    inFlight := [] }

/-- The component showing the payload `{ content: "X" }` while a word export
is waiting for its response. -/
def sysXWord : Sys := run sysX (handleExportWordBegin resultX)

/-- The requests in flight that were posted to `url`. -/
def inFlightAt (url : String) (s : Sys) : List Request :=
  s.inFlight.filter (fun r => r.url == url)

/-- The export invariant of a session driven through the buttons: one pdf
request is in flight while the pdf flag is set, none otherwise; the same for
word; the json flag is clear between events. -/
def exportInv (s : Sys) : Prop :=
  (inFlightAt pdfUrl s).length = s.st.exportLoading.pdf.toNat ∧
  (inFlightAt wordUrl s).length = s.st.exportLoading.word.toNat ∧
  s.st.exportLoading.json = false

/-- A complete payload with the score `score`. -/
def resultScored (score : ℚ) : GeneratedResult :=
  { content := some "X", text_content := none
    final_decision := some { final_decision := some "Approved",
                             summary := some ["clear", "on topic"],
                             final_score := some score } }

/-- What can happen to the component when its handlers may also be called
directly, past the form and the buttons: an event of the rendered page, a
call of `handleSubmit`, or a call of an export handler (up to its first
suspension). -/
inductive Action where
  | event (e : Event)
  | callHandleSubmit
  | callExport (f : Format) (o : ExportOutcome)
deriving DecidableEq, Repr

/-- One action. -/
def act (s : Sys) : Action → Sys
  | .event e => step s e
  | .callHandleSubmit => run s (handleSubmitBegin s.st.formData)
  | .callExport f o => run s (exportHandlerBegin f s.st.generatedContent o)

/-- The system after a sequence of actions, starting from the freshly mounted
component. -/
def play (actions : List Action) : Sys := actions.foldl act Sys.initial

/-- At most one submission is in flight at any time of the run: after every
number `k` of its actions at most one generation request is in flight. -/
def singleFlight (actions : List Action) : Prop :=
  ∀ k, (inFlightGenerate (play (actions.take k))).length ≤ 1

/-- The stored result and the stored error are not both non-null, and both
are null while `isGenerating` is set. -/
def resultErrorExclusive (st : State) : Prop :=
  ¬ (st.generatedContent ≠ none ∧ st.error ≠ none) ∧
  (st.isGenerating = true → st.generatedContent = none ∧ st.error = none)

/-- The alerts shown in a log, in order. -/
def alerts : List Effect → List String
  | [] => []
  | .alert m :: es => m :: alerts es
  | _ :: es => alerts es

/-- The name of a format in the failure notice of its handler (source lines
100, 126, 147). -/
def formatLabel : Format → String
  | .pdf => "PDF"
  | .word => "Word document"
  | .json => "JSON"

/-- A payload whose final decision has only a summary. -/
def resultPartial : GeneratedResult :=
  { content := some "X", text_content := none
    final_decision := some { final_decision := none, summary := some ["clear", "on topic"],
                             final_score := none } }

/-- The events of a session in which the form with topic "a" is submitted
and the service answers with the payload `r`. -/
def generated (r : GeneratedResult) : List Event :=
  [ .editForm formA, .submitForm, .settleGenerate 0 (.ok ⟨⟨some r⟩⟩) ]

/-- A session driven through the page: a payload with a final decision has
been generated and the pdf button has been clicked; the pdf export is waiting
for its response. -/
def pdfWaiting : Sys := reach (generated resultPartial ++ [.clickExport .pdf .failed])

/-- A run with one submission at a time: `handleSubmit` is called directly on
the empty form and fails, then the form with topic "a" is submitted and
succeeds with the payload `{ content: "X" }`. -/
def soloRun : List Action :=
  [ .callHandleSubmit,
    .event (.settleGenerate 0 (.failed ⟨none⟩)),
    .event (.editForm formA),
    .event .submitForm,
    .event (.settleGenerate 0 (.ok ⟨⟨some resultX⟩⟩)) ]

/-! ## Basic lemmas -/

@[simp] theorem run_nil (s : Sys) : run s [] = s := rfl

@[simp] theorem run_cons (s : Sys) (c : Cmd) (cs : List Cmd) :
    run s (c :: cs) = run (exec s c) cs := rfl

theorem run_append (s : Sys) (cs ds : List Cmd) :
    run s (cs ++ ds) = run (run s cs) ds := by
  simp [run, List.foldl_append]

theorem generateUrl_ne_pdfUrl : pdfUrl ≠ generateUrl := by decide

theorem generateUrl_ne_wordUrl : wordUrl ≠ generateUrl := by decide

/-- Settling a request that is not a generation request leaves the generation
requests in flight as they were. -/
theorem inFlightGenerate_erase_other (s : Sys) (r : Request) (h : r.url ≠ generateUrl) :
    (s.inFlight.erase r).filter (fun q => q.url == generateUrl) = inFlightGenerate s := by
  unfold inFlightGenerate
  rw [← List.erase_filter]
  apply List.erase_of_not_mem
  intro hm
  have := (List.mem_filter.mp hm).2
  simp at this
  exact h this

/-- Settling a generation request that is in flight removes exactly one
generation request. -/
theorem inFlightGenerate_erase_self (s : Sys) (r : Request) (hm : r ∈ s.inFlight)
    (h : r.url = generateUrl) :
    ((s.inFlight.erase r).filter (fun q => q.url == generateUrl)).length + 1
      = (inFlightGenerate s).length := by
  unfold inFlightGenerate
  rw [← List.erase_filter]
  have hmem : r ∈ s.inFlight.filter (fun q => q.url == generateUrl) := by
    apply List.mem_filter.mpr
    exact ⟨hm, by simp [h]⟩
  rw [List.length_erase_of_mem hmem]
  have : 0 < (s.inFlight.filter (fun q => q.url == generateUrl)).length :=
    List.length_pos_of_mem hmem
  omega

theorem sessionInv_initial : sessionInv Sys.initial := by
  simp [sessionInv, inFlightGenerate, Sys.initial, State.initial]

theorem sessionInv_submitForm (s : Sys) (h : sessionInv s) : sessionInv (step s .submitForm) := by
  unfold sessionInv at h ⊢
  simp only [step]
  by_cases hs : formSubmits s.st = true
  · rw [if_pos hs]
    simp only [formSubmits, Bool.and_eq_true, Bool.not_eq_true'] at hs
    simp only [hs.1, Bool.toNat_false] at h
    simp only [inFlightGenerate, List.length_eq_zero] at h
    simp [handleSubmitBegin, exec, inFlightGenerate, List.filter_append, generateRequest, h]
  · rw [if_neg hs]
    exact h

theorem sessionInv_resumeGenerate (s : Sys) (request : Request) (o : GenerateOutcome)
    (hm : request ∈ s.inFlight) (h : sessionInv s) : sessionInv (resumeGenerate s request o) := by
  unfold sessionInv at h ⊢
  unfold resumeGenerate
  by_cases hu : request.url = generateUrl
  · rw [if_pos hu]
    have hlen := inFlightGenerate_erase_self s request hm hu
    have hgen : s.st.isGenerating = true := by
      cases hg : s.st.isGenerating with
      | true => rfl
      | false => rw [hg] at h; simp only [Bool.toNat_false] at h; omega
    rw [hgen] at h
    simp only [Bool.toNat_true] at h
    have hz : ((s.inFlight.erase request).filter (fun q => q.url == generateUrl)).length = 0 := by
      omega
    cases o <;> simpa [handleSubmitResume, exec, inFlightGenerate] using hz
  · rw [if_neg hu]
    exact h

theorem sessionInv_clickExport (s : Sys) (f : Format) (o : ExportOutcome) (h : sessionInv s) :
    sessionInv (step s (.clickExport f o)) := by
  unfold sessionInv at h ⊢
  simp only [step]
  by_cases hc : exportClickable s.st f = true
  · rw [if_pos hc]
    cases hg : s.st.generatedContent with
    | none => simpa [exportHandlerBegin] using h
    | some r =>
      cases f
      · simpa [exportHandlerBegin, handleExportPDFBegin, exec, inFlightGenerate,
          List.filter_append, pdfRequest, generateUrl_ne_pdfUrl] using h
      · simpa [exportHandlerBegin, handleExportWordBegin, exec, inFlightGenerate,
          List.filter_append, wordRequest, generateUrl_ne_wordUrl] using h
      · cases o <;> simpa [exportHandlerBegin, handleExportJSON, exec, inFlightGenerate] using h
  · rw [if_neg hc]
    exact h

theorem sessionInv_resumeExport (s : Sys) (request : Request) (o : ExportOutcome)
    (h : sessionInv s) : sessionInv (resumeExport s request o) := by
  unfold sessionInv at h ⊢
  obtain ⟨url, body⟩ := request
  cases body with
  | generate rd => simpa [resumeExport] using h
  | result r =>
    simp only [resumeExport]
    by_cases hu : url = pdfUrl
    · subst hu
      rw [if_pos rfl]
      have hk := inFlightGenerate_erase_other s (pdfRequest r) generateUrl_ne_pdfUrl
      cases o <;> simp [handleExportPDFResume, exec] <;> simpa [inFlightGenerate, hk] using h
    · rw [if_neg hu]
      by_cases hw : url = wordUrl
      · subst hw
        rw [if_pos rfl]
        have hk := inFlightGenerate_erase_other s (wordRequest r) generateUrl_ne_wordUrl
        cases o <;> simp [handleExportWordResume, exec] <;> simpa [inFlightGenerate, hk] using h
      · rw [if_neg hw]
        exact h

/-- Every event of a form-driven session preserves the session invariant. -/
theorem sessionInv_step (s : Sys) (e : Event) (h : sessionInv s) : sessionInv (step s e) := by
  cases e with
  | editForm fd => simpa [step, sessionInv, inFlightGenerate] using h
  | submitForm => exact sessionInv_submitForm s h
  | settleGenerate i o =>
    simp only [step]
    cases hreq : s.inFlight[i]? with
    | none => exact h
    | some request => exact sessionInv_resumeGenerate s request o (List.getElem?_mem hreq) h
  | clickExport f o => exact sessionInv_clickExport s f o h
  | settleExport i o =>
    simp only [step]
    cases hreq : s.inFlight[i]? with
    | none => exact h
    | some request => exact sessionInv_resumeExport s request o h

theorem sessionInv_foldl (events : List Event) (s : Sys) (h : sessionInv s) :
    sessionInv (events.foldl step s) := by
  induction events generalizing s with
  | nil => exact h
  | cons e es ih => exact ih (step s e) (sessionInv_step s e h)

/-- The session invariant holds in every state a form-driven session reaches. -/
theorem sessionInv_reach (events : List Event) : sessionInv (reach events) :=
  sessionInv_foldl events Sys.initial sessionInv_initial

/-! ## C1: submitting while a submission is in flight -/

/-- C1, as stated, fails on `handleSubmit`: in the state reached by submitting
the form with topic "a", `isGenerating` is set, and a further call of
`handleSubmit` posts a second generation request, so two are in flight. -/
theorem C1_handleSubmit_posts_while_generating :
    (step sysA .submitForm).st.isGenerating = true ∧
    posts (step sysA .submitForm).log = [generateRequest formA] ∧
    posts (run (step sysA .submitForm) (handleSubmitBegin formA)).log
      = [generateRequest formA, generateRequest formA] ∧
    (inFlightGenerate (run (step sysA .submitForm) (handleSubmitBegin formA))).length = 2 := by
  decide

/-- C1, amended: while `isGenerating` is set the submit button is disabled, so
submitting the form does not call `handleSubmit` and changes nothing (no
request, same phase, result and error), and in a session driven through the
form at most one generation request is in flight.  `handleSubmit` itself has
no such check: called in that state it posts one more request, keeps the
phase, and sets the result and the error to null. -/
theorem C1_submit_gated_while_generating (s : Sys) (events : List Event)
    (h : s.st.isGenerating = true) :
    step s .submitForm = s ∧
    (inFlightGenerate (reach events)).length ≤ 1 ∧
    (run s (handleSubmitBegin s.st.formData)).inFlight
      = s.inFlight ++ [generateRequest s.st.formData] ∧
    phase (run s (handleSubmitBegin s.st.formData)).st = phase s.st ∧
    (run s (handleSubmitBegin s.st.formData)).st.generatedContent = none ∧
    (run s (handleSubmitBegin s.st.formData)).st.error = none := by
  refine ⟨?_, ?_, ?_, ?_, by simp [handleSubmitBegin, exec], by simp [handleSubmitBegin, exec]⟩
  · simp [step, formSubmits, h]
  · have hinv := sessionInv_reach events
    unfold sessionInv at hinv
    rw [hinv]
    cases (reach events).st.isGenerating <;> simp
  · simp [handleSubmitBegin, exec]
  · simp [handleSubmitBegin, exec, phase, showsWorking, h]

/-- Witness of C1: the state reached by submitting the form with topic "a". -/
theorem C1_submit_gated_while_generating_witness :
    (step sysA .submitForm).st.isGenerating = true ∧
    step (step sysA .submitForm) .submitForm = step sysA .submitForm ∧
    (inFlightGenerate (reach [.editForm formA, .submitForm, .submitForm])).length ≤ 1 :=
  ⟨by decide,
   (C1_submit_gated_while_generating (step sysA .submitForm)
      [.editForm formA, .submitForm, .submitForm] (by decide)).1,
   (C1_submit_gated_while_generating (step sysA .submitForm)
      [.editForm formA, .submitForm, .submitForm] (by decide)).2.1⟩

/-! ## C2: responses of superseded submissions -/

/-- C2, as stated, fails: `handleSubmit` is called for topic "a" and again for
topic "b" before the first request has settled.  The first response then
arrives (the second request is still in flight) and is applied: a success
stores its payload and ends `Submitting`, a failure stores its message and
ends `Submitting`. -/
theorem C2_stale_response_applied :
    (run (step (run sysA (handleSubmitBegin formA)) (.editForm formB))
        (handleSubmitBegin formB)).inFlight = [generateRequest formA, generateRequest formB] ∧
    phase (run (step (run sysA (handleSubmitBegin formA)) (.editForm formB))
        (handleSubmitBegin formB)).st = .Submitting ∧
    (resumeGenerate
        (run (step (run sysA (handleSubmitBegin formA)) (.editForm formB))
          (handleSubmitBegin formB))
        (generateRequest formA) (.ok ⟨⟨some resultX⟩⟩)).st.generatedContent = some resultX ∧
    phase (resumeGenerate
        (run (step (run sysA (handleSubmitBegin formA)) (.editForm formB))
          (handleSubmitBegin formB))
        (generateRequest formA) (.ok ⟨⟨some resultX⟩⟩)).st = .Succeeded ∧
    (resumeGenerate
        (run (step (run sysA (handleSubmitBegin formA)) (.editForm formB))
          (handleSubmitBegin formB))
        (generateRequest formA) (.ok ⟨⟨some resultX⟩⟩)).inFlight = [generateRequest formB] ∧
    (resumeGenerate
        (run (step (run sysA (handleSubmitBegin formA)) (.editForm formB))
          (handleSubmitBegin formB))
        (generateRequest formA) (.failed ⟨none⟩)).st.error = some fallbackMessage ∧
    phase (resumeGenerate
        (run (step (run sysA (handleSubmitBegin formA)) (.editForm formB))
          (handleSubmitBegin formB))
        (generateRequest formA) (.failed ⟨none⟩)).st = .Failed := by
  decide

/-- C2, amended: `handleSubmit` has no stale-response guard.  Whatever else is
in flight, a response that arrives is applied: a success stores its payload as
the result, a failure stores its message as the error, and both clear
`isGenerating`.  What holds instead: in a session driven through the form (the
submit button is disabled while a submission is in flight) a generation
request that settles is the only generation request in flight, so no response
of a superseded submission ever arrives. -/
theorem C2_no_stale_guard_but_single_flight (s : Sys) (request : Request)
    (response : AxiosResponse) (err : AxiosError) (events : List Event) (i : Nat)
    (hi : (reach events).inFlight[i]? = some request) (hu : request.url = generateUrl) :
    (run s (handleSubmitResume request (.ok response))).st
      = { s.st with generatedContent := response.data.data, isGenerating := false } ∧
    (run s (handleSubmitResume request (.failed err))).st
      = { s.st with error := errorMessage err, isGenerating := false } ∧
    inFlightGenerate (reach events) = [request] := by
  refine ⟨by simp [handleSubmitResume, exec], by simp [handleSubmitResume, exec], ?_⟩
  have hinv := sessionInv_reach events
  unfold sessionInv at hinv
  have hmem : request ∈ inFlightGenerate (reach events) := by
    unfold inFlightGenerate
    exact List.mem_filter.mpr ⟨List.getElem?_mem hi, by simp [hu]⟩
  have hle : (inFlightGenerate (reach events)).length ≤ 1 := by
    rw [hinv]
    cases (reach events).st.isGenerating <;> simp
  match hl : inFlightGenerate (reach events), hmem, hle with
  | [], hm, _ => simp at hm
  | [q], hm, _ => simp at hm; rw [hm]
  | _ :: _ :: _, _, hlen => simp at hlen

/-- Witness of C2: the form with topic "a" is submitted once; its request is
the one in flight. -/
theorem C2_no_stale_guard_but_single_flight_witness :
    (reach [.editForm formA, .submitForm]).inFlight[0]? = some (generateRequest formA) ∧
    (generateRequest formA).url = generateUrl ∧
    inFlightGenerate (reach [.editForm formA, .submitForm]) = [generateRequest formA] :=
  ⟨by decide, by decide,
   (C2_no_stale_guard_but_single_flight Sys.initial (generateRequest formA) ⟨⟨none⟩⟩ ⟨none⟩
      [.editForm formA, .submitForm] 0 (by decide) (by decide)).2.2⟩

/-! ## C3: a failing generation response -/

/-- C3, as stated, fails: the error response carries the detail "" (present,
but empty).  `handleSubmit` does not store that detail; it stores the generic
message. -/
theorem C3_empty_detail_gives_fallback :
    errDetail ⟨some ⟨some ⟨some ""⟩⟩⟩ = some "" ∧
    (run sysA (handleSubmit formA (.failed ⟨some ⟨some ⟨some ""⟩⟩⟩))).st.error
      = some "An error occurred while generating content" ∧
    (run sysA (handleSubmit formA (.failed ⟨some ⟨some ⟨some ""⟩⟩⟩))).st.error ≠ some "" := by
  decide

/-- C3, amended: after `handleSubmit` has completed on a failing response, the
stored error is the `detail` of the response verbatim when a non-empty
`detail` is present, and the generic message when `detail` is missing (also
when the body or the whole response is missing) or is the empty string; in
every case the session is no longer Submitting, the stored result is null and
the phase is Failed. -/
theorem C3_failure_stores_detail_or_fallback (s : Sys) (formData : FormData)
    (err : AxiosError) :
    (∀ d, errDetail err = some d → d ≠ "" →
      (run s (handleSubmit formData (.failed err))).st.error = some d) ∧
    (errDetail err = none ∨ errDetail err = some "" →
      (run s (handleSubmit formData (.failed err))).st.error
        = some "An error occurred while generating content") ∧
    errDetail ⟨none⟩ = none ∧
    (run s (handleSubmit formData (.failed err))).st.isGenerating = false ∧
    (run s (handleSubmit formData (.failed err))).st.generatedContent = none ∧
    phase (run s (handleSubmit formData (.failed err))).st = .Failed := by
  have hst : (run s (handleSubmit formData (.failed err))).st
      = { s.st with isGenerating := false, generatedContent := none,
                    error := errorMessage err } := by
    simp [handleSubmit, handleSubmitBegin, handleSubmitResume, exec]
  rw [hst]
  refine ⟨?_, ?_, rfl, rfl, rfl, ?_⟩
  · intro d hd hne
    simp [errorMessage, jsOr, truthy, hd, hne]
  · intro h
    rcases h with h | h <;> simp [errorMessage, jsOr, truthy, h, fallbackMessage]
  · cases hd : errDetail err with
    | none =>
      simp [phase, showsWorking, showsResult, showsError, errorMessage, jsOr, truthy, hd,
        fallbackMessage]
    | some d =>
      by_cases hne : d = ""
      · simp [phase, showsWorking, showsResult, showsError, errorMessage, jsOr, truthy, hd,
          hne, fallbackMessage]
      · simp [phase, showsWorking, showsResult, showsError, errorMessage, jsOr, truthy, hd, hne]

/-- Witness of C3: the detail "bad audience" is stored verbatim, and a
response without a body yields the generic message. -/
theorem C3_failure_stores_detail_or_fallback_witness :
    (run sysA (handleSubmit formA (.failed ⟨some ⟨some ⟨some "bad audience"⟩⟩⟩))).st.error
      = some "bad audience" ∧
    (run sysA (handleSubmit formA (.failed ⟨some ⟨none⟩⟩))).st.error
      = some "An error occurred while generating content" :=
  ⟨(C3_failure_stores_detail_or_fallback sysA formA ⟨some ⟨some ⟨some "bad audience"⟩⟩⟩).1
      "bad audience" (by decide) (by decide),
   (C3_failure_stores_detail_or_fallback sysA formA ⟨some ⟨none⟩⟩).2.1 (Or.inl (by decide))⟩

/-! ## C4: a successful generation response -/

/-- C4: after `handleSubmit` has completed on a successful response
`{ data: d }`, the stored result is `d`, the stored error is null, the session
is no longer Submitting, and the phase is Succeeded, which differs from Idle,
the phase of the freshly mounted component (the placeholder is not rendered,
the result panel is).  For `d` with `content: "X"` the displayed body is
"X". -/
theorem C4_success_stores_payload (s : Sys) (formData : FormData) (d : GeneratedResult)
    (text_content : Option String) (decision : Option FinalDecision) :
    (run s (handleSubmit formData (.ok ⟨⟨some d⟩⟩))).st.generatedContent = some d ∧
    (run s (handleSubmit formData (.ok ⟨⟨some d⟩⟩))).st.error = none ∧
    (run s (handleSubmit formData (.ok ⟨⟨some d⟩⟩))).st.isGenerating = false ∧
    phase (run s (handleSubmit formData (.ok ⟨⟨some d⟩⟩))).st = .Succeeded ∧
    phase State.initial = .Idle ∧
    phase (run s (handleSubmit formData (.ok ⟨⟨some d⟩⟩))).st ≠ phase State.initial ∧
    showsReady (run s (handleSubmit formData (.ok ⟨⟨some d⟩⟩))).st = false ∧
    showsResult (run s (handleSubmit formData (.ok ⟨⟨some d⟩⟩))).st = true ∧
    displayedBody (run s (handleSubmit formData
      (.ok ⟨⟨some { content := some "X", text_content := text_content,
                    final_decision := decision }⟩⟩))).st = some "X" := by
  have hst : ∀ r : GeneratedResult, (run s (handleSubmit formData (.ok ⟨⟨some r⟩⟩))).st
      = { s.st with isGenerating := false, generatedContent := some r, error := none } := by
    intro r
    simp [handleSubmit, handleSubmitBegin, handleSubmitResume, exec]
  rw [hst, hst]
  refine ⟨rfl, rfl, rfl, ?_, by decide, ?_, ?_, ?_, ?_⟩
  · simp [phase, showsWorking, showsResult]
  · simp [phase, showsWorking, showsResult, showsError, truthy, State.initial]
  · simp [showsReady]
  · simp [showsResult]
  · simp [displayedBody, bodyText, jsOr, truthy]

/-! ## C5: starting a submission -/

/-- C5: from every prior state, the first segment of `handleSubmit` (up to the
`await`) ends with the phase Submitting, a null result and a null error.  Its
first three commands are the setters: after them `isGenerating` is set, result
and error are null, and nothing has been posted yet; the post is the fourth
and last command. -/
theorem C5_begin_clears_session (s : Sys) (formData : FormData) :
    (run s (handleSubmitBegin formData)).st.isGenerating = true ∧
    (run s (handleSubmitBegin formData)).st.generatedContent = none ∧
    (run s (handleSubmitBegin formData)).st.error = none ∧
    phase (run s (handleSubmitBegin formData)).st = .Submitting ∧
    (handleSubmitBegin formData).drop 3 = [.perform (.post (generateRequest formData))] ∧
    (run s ((handleSubmitBegin formData).take 3)).st.isGenerating = true ∧
    (run s ((handleSubmitBegin formData).take 3)).st.generatedContent = none ∧
    (run s ((handleSubmitBegin formData).take 3)).st.error = none ∧
    (run s ((handleSubmitBegin formData).take 3)).log = s.log ∧
    (run s ((handleSubmitBegin formData).take 3)).inFlight = s.inFlight ∧
    (run s (handleSubmitBegin formData)).log = s.log ++ [.post (generateRequest formData)] := by
  simp [handleSubmitBegin, exec, phase, showsWorking]

/-! ## C6: the request of a submission -/

/-- C6: for a form with a non-empty topic and offered audience, tone and
length values, one whole call of `handleSubmit`, whether the request succeeds
or fails, posts exactly one request: to the `/generate-and-govern` endpoint,
with the body `{ type: "text", topic, target_audience, style_guide }` whose
last three fields are those of the form, `style_guide` being its
`{ tone, length }` record.  Submitting such a form while no submission is in
flight does call `handleSubmit`. -/
theorem C6_one_request_with_form_fields (s : Sys) (o : GenerateOutcome)
    (h : validForm s.st.formData) :
    posts (run s (handleSubmit s.st.formData o)).log
      = posts s.log ++
        [ { url := "http://localhost:8000/generate-and-govern",
            body := .generate
              { type := "text"
                topic := s.st.formData.topic
                target_audience := s.st.formData.target_audience
                style_guide := { tone := s.st.formData.style_guide.tone,
                                 length := s.st.formData.style_guide.length } } } ] ∧
    (s.st.isGenerating = false →
      step s .submitForm = run s (handleSubmitBegin s.st.formData)) := by
  refine ⟨?_, fun hg => by simp [step, formSubmits, hg, h.1]⟩
  have hp : ∀ (l : List Effect) (r : Request), posts (l ++ [.post r]) = posts l ++ [r] := by
    intro l r
    induction l with
    | nil => rfl
    | cons e es ih => cases e <;> simp [posts, ih]
  cases o <;>
    simp [handleSubmit, handleSubmitBegin, handleSubmitResume, exec, hp, generateRequest,
      requestData, generateUrl]

/-- Witness of C6: the form with topic "a" and the default selections, with a
failing request. -/
theorem C6_one_request_with_form_fields_witness :
    validForm sysA.st.formData ∧
    posts (run sysA (handleSubmit sysA.st.formData (.failed ⟨none⟩))).log
      = [ { url := "http://localhost:8000/generate-and-govern",
            body := .generate
              { type := "text", topic := "a", target_audience := "general",
                style_guide := { tone := "professional", length := "medium" } } } ] :=
  ⟨by decide, (C6_one_request_with_form_fields sysA (.failed ⟨none⟩) (by decide)).1⟩

/-! ## C7: an empty topic -/

/-- C7, as stated, fails on `handleSubmit`: called on the freshly mounted
component, whose topic is the empty string, it enters Submitting and posts a
request with the topic "". -/
theorem C7_handleSubmit_posts_empty_topic :
    Sys.initial.st.formData.topic = "" ∧
    phase (run Sys.initial (handleSubmitBegin Sys.initial.st.formData)).st = .Submitting ∧
    posts (run Sys.initial (handleSubmitBegin Sys.initial.st.formData)).log
      = [ { url := "http://localhost:8000/generate-and-govern",
            body := .generate
              { type := "text", topic := "", target_audience := "general",
                style_guide := { tone := "professional", length := "medium" } } } ] := by
  decide

/-- C7, amended: a form whose topic is the empty string cannot be submitted:
the topic input is `required`, so the browser does not call `handleSubmit`;
no request is made and Submitting is not entered (the whole system is
unchanged).  `handleSubmit` itself does not look at the topic: called with an
empty topic it enters Submitting and posts the request. -/
theorem C7_empty_topic_blocked_by_form (s : Sys) (h : s.st.formData.topic = "") :
    step s .submitForm = s ∧
    (run s (handleSubmitBegin s.st.formData)).st.isGenerating = true ∧
    (run s (handleSubmitBegin s.st.formData)).log
      = s.log ++ [.post (generateRequest s.st.formData)] := by
  refine ⟨?_, ?_, ?_⟩
  · simp [step, formSubmits, h]
  · simp [handleSubmitBegin, exec]
  · simp [handleSubmitBegin, exec]

/-- Witness of C7: the freshly mounted component. -/
theorem C7_empty_topic_blocked_by_form_witness :
    Sys.initial.st.formData.topic = "" ∧ step Sys.initial .submitForm = Sys.initial :=
  ⟨by decide, (C7_empty_topic_blocked_by_form Sys.initial (by decide)).1⟩

/-! ## C8: exporting without a result -/

/-- C8: when the stored result is null, the export handler of every format
executes no command at all: the system (state, with every export flag, log of
requests and downloads, requests in flight) is unchanged.  The export buttons
are not rendered either. -/
theorem C8_export_without_result_noop (f : Format) (s : Sys) (o : ExportOutcome)
    (h : s.st.generatedContent = none) :
    exportHandler f s.st.generatedContent o = [] ∧
    run s (exportHandler f s.st.generatedContent o) = s ∧
    step s (.clickExport f o) = s := by
  refine ⟨?_, ?_, ?_⟩
  · cases f <;> simp [exportHandler, handleExportPDF, handleExportWord, handleExportJSON, h]
  · cases f <;> simp [exportHandler, handleExportPDF, handleExportWord, handleExportJSON, h]
  · simp [step, exportClickable, h]

/-- Witness of C8: the pdf export on the freshly mounted component. -/
theorem C8_export_without_result_noop_witness :
    Sys.initial.st.generatedContent = none ∧
    run Sys.initial (exportHandler .pdf Sys.initial.st.generatedContent .failed) = Sys.initial :=
  ⟨by decide, (C8_export_without_result_noop .pdf Sys.initial .failed (by decide)).2.1⟩

/-! ## C9: export isolation -/

theorem untouched_refl (g : Format) (t : Sys) : untouched g t t :=
  ⟨rfl, rfl, rfl, rfl, rfl⟩

theorem untouched_trans (g : Format) (t u v : Sys) (h₁ : untouched g t u)
    (h₂ : untouched g u v) : untouched g t v :=
  ⟨h₂.1.trans h₁.1, h₂.2.1.trans h₁.2.1, h₂.2.2.1.trans h₁.2.2.1,
   h₂.2.2.2.1.trans h₁.2.2.2.1, h₂.2.2.2.2.trans h₁.2.2.2.2⟩

/-- A list of commands each of which leaves `g` and the session alone does so
as a whole. -/
theorem untouched_run (g : Format) (cs : List Cmd)
    (h : ∀ c ∈ cs, ∀ t : Sys, untouched g t (exec t c)) (s : Sys) :
    untouched g s (run s cs) := by
  induction cs generalizing s with
  | nil => exact untouched_refl g s
  | cons c cs ih =>
    rw [run_cons]
    exact untouched_trans g s (exec s c) _ (h c (List.mem_cons_self c cs) s)
      (ih (fun d hd => h d (List.mem_cons_of_mem c hd)) (exec s c))

/-- Every command of the export handler of `f` leaves the flag of another
format and the session cells alone, in whatever state it is executed. -/
theorem untouched_exportHandler (f g : Format) (gc : Option GeneratedResult)
    (o : ExportOutcome) (h : f ≠ g) :
    ∀ c ∈ exportHandler f gc o, ∀ t : Sys, untouched g t (exec t c) := by
  cases gc with
  | none =>
    cases f <;> simp [exportHandler, handleExportPDF, handleExportWord, handleExportJSON]
  | some r =>
    cases f <;> cases g <;> cases o <;>
      first
      | exact absurd rfl h
      | simp [exportHandler, handleExportPDF, handleExportWord, handleExportJSON,
          handleExportPDFBegin, handleExportPDFResume, handleExportWordBegin,
          handleExportWordResume, untouched, exec, ExportLoading.get, ExportLoading.set,
          phase, showsWorking, showsResult, showsError]

/-- C9: for distinct formats `f` and `g` and every outcome of the export of
`f`, every command of the export handler of `f`, in whatever state it is
executed (so also when it runs interleaved with other handlers), leaves the
job flag of `g`, the stored result, the stored error, `isGenerating` and the
phase as they are; hence so does the handler after any number `k` of its
steps, and as a whole. -/
theorem C9_export_isolation (f g : Format) (s : Sys) (o : ExportOutcome) (k : Nat)
    (h : f ≠ g) :
    (∀ c ∈ exportHandler f s.st.generatedContent o, ∀ t : Sys, untouched g t (exec t c)) ∧
    untouched g s (run s ((exportHandler f s.st.generatedContent o).take k)) ∧
    untouched g s (run s (exportHandler f s.st.generatedContent o)) := by
  have hall := untouched_exportHandler f g s.st.generatedContent o h
  refine ⟨hall, ?_, untouched_run g _ hall s⟩
  exact untouched_run g _ (fun c hc => hall c (List.mem_of_mem_take hc)) s

/-- Witness of C9: a pdf export fails while a word export is waiting for its
response; the word flag stays set and the result stays the payload. -/
theorem C9_export_isolation_witness :
    Format.pdf ≠ Format.word ∧
    sysXWord.st.exportLoading.word = true ∧
    (run sysXWord (exportHandler .pdf sysXWord.st.generatedContent .failed)).st.exportLoading.get
      .word = sysXWord.st.exportLoading.get .word ∧
    (run sysXWord (exportHandler .pdf sysXWord.st.generatedContent .failed)).st.generatedContent
      = sysXWord.st.generatedContent :=
  ⟨by decide, by decide,
   (C9_export_isolation .pdf .word sysXWord .failed 0 (by decide)).2.2.1,
   (C9_export_isolation .pdf .word sysXWord .failed 0 (by decide)).2.2.2.1⟩

/-! ## The export invariant of a session driven through the page -/

theorem pdfUrl_ne_wordUrl : pdfUrl ≠ wordUrl := by decide

theorem wordUrl_ne_pdfUrl : wordUrl ≠ pdfUrl := by decide

theorem generateUrl_ne_pdfUrl' : generateUrl ≠ pdfUrl := by decide

theorem generateUrl_ne_wordUrl' : generateUrl ≠ wordUrl := by decide

/-- Settling a request posted elsewhere leaves the requests in flight at `u`
as they were. -/
theorem inFlightAt_erase_other (s : Sys) (r : Request) (u : String) (h : r.url ≠ u) :
    (s.inFlight.erase r).filter (fun q => q.url == u) = inFlightAt u s := by
  unfold inFlightAt
  rw [← List.erase_filter]
  apply List.erase_of_not_mem
  intro hm
  have := (List.mem_filter.mp hm).2
  simp at this
  exact h this

/-- Settling a request in flight at `u` removes exactly one of them. -/
theorem inFlightAt_erase_self (s : Sys) (r : Request) (u : String) (hm : r ∈ s.inFlight)
    (h : r.url = u) :
    ((s.inFlight.erase r).filter (fun q => q.url == u)).length + 1 = (inFlightAt u s).length := by
  unfold inFlightAt
  rw [← List.erase_filter]
  have hmem : r ∈ s.inFlight.filter (fun q => q.url == u) :=
    List.mem_filter.mpr ⟨hm, by simp [h]⟩
  rw [List.length_erase_of_mem hmem]
  have : 0 < (s.inFlight.filter (fun q => q.url == u)).length := List.length_pos_of_mem hmem
  omega

theorem exportInv_initial : exportInv Sys.initial := by
  simp [exportInv, inFlightAt, Sys.initial, State.initial]

theorem exportInv_submitForm (s : Sys) (h : exportInv s) : exportInv (step s .submitForm) := by
  unfold exportInv at h ⊢
  simp only [step]
  by_cases hs : formSubmits s.st = true
  · rw [if_pos hs]
    simpa [handleSubmitBegin, exec, inFlightAt, List.filter_append, generateRequest,
      generateUrl_ne_pdfUrl', generateUrl_ne_wordUrl'] using h
  · rw [if_neg hs]
    exact h

theorem exportInv_resumeGenerate (s : Sys) (request : Request) (o : GenerateOutcome)
    (h : exportInv s) : exportInv (resumeGenerate s request o) := by
  unfold exportInv at h ⊢
  unfold resumeGenerate
  by_cases hu : request.url = generateUrl
  · rw [if_pos hu]
    have hp := inFlightAt_erase_other s request pdfUrl (by rw [hu]; exact generateUrl_ne_pdfUrl')
    have hw := inFlightAt_erase_other s request wordUrl (by rw [hu]; exact generateUrl_ne_wordUrl')
    cases o <;> simp [handleSubmitResume, exec] <;> simpa [inFlightAt, hp, hw] using h
  · rw [if_neg hu]
    exact h

theorem exportInv_clickExport (s : Sys) (f : Format) (o : ExportOutcome) (h : exportInv s) :
    exportInv (step s (.clickExport f o)) := by
  unfold exportInv at h ⊢
  simp only [step]
  by_cases hc : exportClickable s.st f = true
  · rw [if_pos hc]
    cases hg : s.st.generatedContent with
    | none => simpa [exportHandlerBegin] using h
    | some r =>
      obtain ⟨hp, hw, hj⟩ := h
      cases f
      · have hf : s.st.exportLoading.pdf = false := by
          have hc' : s.st.exportLoading.pdf = false ∧ r.final_decision.isSome = true := by
            simpa [exportClickable, hg, ExportLoading.get] using hc
          exact hc'.1
        rw [hf] at hp
        simp only [inFlightAt, Bool.toNat_false, List.length_eq_zero] at hp
        simp only [inFlightAt] at hw
        simp [exportHandlerBegin, handleExportPDFBegin, exec, inFlightAt, List.filter_append,
          pdfRequest, pdfUrl_ne_wordUrl, ExportLoading.set, hp, hw, hj]
      · have hf : s.st.exportLoading.word = false := by
          have hc' : s.st.exportLoading.word = false ∧ r.final_decision.isSome = true := by
            simpa [exportClickable, hg, ExportLoading.get] using hc
          exact hc'.1
        rw [hf] at hw
        simp only [inFlightAt, Bool.toNat_false, List.length_eq_zero] at hw
        simp only [inFlightAt] at hp
        simp [exportHandlerBegin, handleExportWordBegin, exec, inFlightAt, List.filter_append,
          wordRequest, wordUrl_ne_pdfUrl, ExportLoading.set, hp, hw, hj]
      · simp only [inFlightAt] at hp hw
        cases o <;>
          simp [exportHandlerBegin, handleExportJSON, exec, inFlightAt, ExportLoading.set, hp, hw]
  · rw [if_neg hc]
    exact h

theorem exportInv_resumeExport (s : Sys) (request : Request) (o : ExportOutcome)
    (hm : request ∈ s.inFlight) (h : exportInv s) : exportInv (resumeExport s request o) := by
  unfold exportInv at h ⊢
  obtain ⟨hp, hw, hj⟩ := h
  obtain ⟨url, body⟩ := request
  cases body with
  | generate rd => exact ⟨hp, hw, hj⟩
  | result r =>
    simp only [resumeExport]
    by_cases hu : url = pdfUrl
    · subst hu
      rw [if_pos rfl]
      have hself := inFlightAt_erase_self s (pdfRequest r) pdfUrl hm rfl
      have hother := inFlightAt_erase_other s (pdfRequest r) wordUrl pdfUrl_ne_wordUrl
      have hflag : s.st.exportLoading.pdf = true := by
        cases hf : s.st.exportLoading.pdf with
        | true => rfl
        | false => rw [hf] at hp; simp only [Bool.toNat_false] at hp; omega
      rw [hflag] at hp
      simp only [Bool.toNat_true] at hp
      have hz : ((s.inFlight.erase (pdfRequest r)).filter (fun q => q.url == pdfUrl)).length = 0 := by
        omega
      simp only [inFlightAt] at hw
      cases o <;>
        simp [handleExportPDFResume, exec, inFlightAt, ExportLoading.set, hother, hw, hj] <;>
        simpa using hz
    · rw [if_neg hu]
      by_cases hv : url = wordUrl
      · subst hv
        rw [if_pos rfl]
        have hself := inFlightAt_erase_self s (wordRequest r) wordUrl hm rfl
        have hother := inFlightAt_erase_other s (wordRequest r) pdfUrl wordUrl_ne_pdfUrl
        have hflag : s.st.exportLoading.word = true := by
          cases hf : s.st.exportLoading.word with
          | true => rfl
          | false => rw [hf] at hw; simp only [Bool.toNat_false] at hw; omega
        rw [hflag] at hw
        simp only [Bool.toNat_true] at hw
        have hz : ((s.inFlight.erase (wordRequest r)).filter
            (fun q => q.url == wordUrl)).length = 0 := by
          omega
        simp only [inFlightAt] at hp
        cases o <;>
          simp [handleExportWordResume, exec, inFlightAt, ExportLoading.set, hother, hp, hj] <;>
          simpa using hz
      · rw [if_neg hv]
        exact ⟨hp, hw, hj⟩

/-- Every event of a session driven through the buttons preserves the export
invariant. -/
theorem exportInv_step (s : Sys) (e : Event) (h : exportInv s) : exportInv (step s e) := by
  cases e with
  | editForm fd => simpa [step, exportInv, inFlightAt] using h
  | submitForm => exact exportInv_submitForm s h
  | settleGenerate i o =>
    simp only [step]
    cases hreq : s.inFlight[i]? with
    | none => exact h
    | some request => exact exportInv_resumeGenerate s request o h
  | clickExport f o => exact exportInv_clickExport s f o h
  | settleExport i o =>
    simp only [step]
    cases hreq : s.inFlight[i]? with
    | none => exact h
    | some request => exact exportInv_resumeExport s request o (List.getElem?_mem hreq) h

theorem exportInv_foldl (events : List Event) (s : Sys) (h : exportInv s) :
    exportInv (events.foldl step s) := by
  induction events generalizing s with
  | nil => exact h
  | cons e es ih => exact ih (step s e) (exportInv_step s e h)

/-- The export invariant holds in every state a session driven through the
buttons reaches. -/
theorem exportInv_reach (events : List Event) : exportInv (reach events) :=
  exportInv_foldl events Sys.initial exportInv_initial

/-! ## C10: the job flag of a running export -/

/-- C10 fails for the json export.  With a stored result `r`, the segments of
`exportSegments` make up the handler of every format.  The pdf and the word
export commit their flag as set when they start to wait for the response (the
request is then in flight) and as cleared when they end, whether the export
succeeded or failed.  `handleExportJSON` calls `setExportLoading` with
`json: true` first, but it commits a single state, in which its flag is
cleared: in a session driven through the page the json flag is set in no
state at all.  After the handler of any format has finished, its flag is
cleared and its button, where it is rendered, is enabled again. -/
theorem C10_json_export_never_running (f : Format) (s : Sys) (r : GeneratedResult)
    (o : ExportOutcome) (events : List Event) (h : s.st.generatedContent = some r) :
    (exportSegments f r o).flatten = exportHandler f s.st.generatedContent o ∧
    (commits s (exportSegments .pdf r o)).map (fun t => t.st.exportLoading.get .pdf)
      = [true, false] ∧
    (commits s (exportSegments .word r o)).map (fun t => t.st.exportLoading.get .word)
      = [true, false] ∧
    (run s (handleExportPDFBegin r)).inFlight = s.inFlight ++ [pdfRequest r] ∧
    (run s (handleExportWordBegin r)).inFlight = s.inFlight ++ [wordRequest r] ∧
    (handleExportJSON (some r) o).head? = some (.setExportLoading .json true) ∧
    (commits s (exportSegments .json r o)).map (fun t => t.st.exportLoading.get .json)
      = [false] ∧
    (reach events).st.exportLoading.get .json = false ∧
    (run s (exportHandler f s.st.generatedContent o)).st.exportLoading.get f = false ∧
    exportClickable (run s (exportHandler f s.st.generatedContent o)).st f
      = (f == .json || r.final_decision.isSome) := by
  rw [h]
  refine ⟨?_, ?_, ?_, ?_, ?_, ?_, ?_, ?_, ?_, ?_⟩
  · cases f <;>
      simp [exportSegments, exportHandler, handleExportPDF, handleExportWord]
  · cases o <;>
      simp [commits, exportSegments, handleExportPDFBegin, handleExportPDFResume, exec,
        ExportLoading.get, ExportLoading.set]
  · cases o <;>
      simp [commits, exportSegments, handleExportWordBegin, handleExportWordResume, exec,
        ExportLoading.get, ExportLoading.set]
  · simp [handleExportPDFBegin, exec]
  · simp [handleExportWordBegin, exec]
  · cases o <;> simp [handleExportJSON]
  · cases o <;>
      simp [commits, exportSegments, handleExportJSON, exec, ExportLoading.get,
        ExportLoading.set]
  · exact (exportInv_reach events).2.2
  · cases f <;> cases o <;>
      simp [exportHandler, handleExportPDF, handleExportWord, handleExportJSON,
        handleExportPDFBegin, handleExportPDFResume, handleExportWordBegin,
        handleExportWordResume, exec, ExportLoading.get, ExportLoading.set]
  · cases f <;> cases o <;>
      simp [exportHandler, handleExportPDF, handleExportWord, handleExportJSON,
        handleExportPDFBegin, handleExportPDFResume, handleExportWordBegin,
        handleExportWordResume, exec, ExportLoading.get, ExportLoading.set, exportClickable, h]

/-- Witness of C10: the page shows the payload `{ content: "X" }`, generated
through the form, and the user clicks "Export JSON".  The file is delivered,
and the json flag is cleared in the state before the click and in the one
state the click commits. -/
theorem C10_json_export_never_running_witness :
    reach (generated resultX) = sysX ∧
    sysX.st.generatedContent = some resultX ∧
    exportClickable sysX.st .json = true ∧
    sysX.st.exportLoading.get .json = false ∧
    downloads (step sysX (.clickExport .json (.ok "" 7))).log
      = [{ content := .stringify resultX 2, type := "application/json",
           name := "content_analysis_7.json" }] ∧
    (commits sysX (exportSegments .json resultX (.ok "" 7))).map
      (fun t => t.st.exportLoading.get .json) = [false] ∧
    commits sysX (exportSegments .json resultX (.ok "" 7))
      = [step sysX (.clickExport .json (.ok "" 7))] :=
  ⟨by decide, by decide, by decide, by decide, by decide,
   (C10_json_export_never_running .json sysX resultX (.ok "" 7) [] (by decide)).2.2.2.2.2.2.1,
   by decide⟩

/-! ## C11: exporting a format whose export is running -/

/-- C11: the export handler of `f` is called from one place, the `onClick` of
the export button of `f` (source lines 543, 571, 601), and that button is
disabled while the job flag of `f` is set (source lines 544, 572, 602): a
click on it does not reach the handler.  So while the export of `f` is
running a further click is ignored: the button is not clickable, the whole
system is unchanged, in particular no request is posted, no file is delivered
and the job flags are as before; and in a session driven through the page at
most one pdf request and at most one word request are in flight. -/
theorem C11_export_click_ignored_while_running (f : Format) (s : Sys) (o : ExportOutcome)
    (events : List Event) (h : s.st.exportLoading.get f = true) :
    exportClickable s.st f = false ∧
    step s (.clickExport f o) = s ∧
    posts (step s (.clickExport f o)).log = posts s.log ∧
    downloads (step s (.clickExport f o)).log = downloads s.log ∧
    (step s (.clickExport f o)).inFlight = s.inFlight ∧
    (step s (.clickExport f o)).st.exportLoading = s.st.exportLoading ∧
    (inFlightAt pdfUrl (reach events)).length ≤ 1 ∧
    (inFlightAt wordUrl (reach events)).length ≤ 1 := by
  have hinv := exportInv_reach events
  unfold exportInv at hinv
  have hc : exportClickable s.st f = false := by
    cases hg : s.st.generatedContent <;> simp [exportClickable, hg, h]
  have hstep : step s (.clickExport f o) = s := by
    simp [step, hc]
  refine ⟨hc, hstep, by rw [hstep], by rw [hstep], by rw [hstep], by rw [hstep], ?_, ?_⟩
  · rw [hinv.1]
    cases (reach events).st.exportLoading.pdf <;> simp
  · rw [hinv.2.1]
    cases (reach events).st.exportLoading.word <;> simp

/-- Witness of C11: in a session driven through the page a payload with a
final decision has been generated, so that the pdf and the word button are
rendered, and the pdf button has been clicked: its export is waiting for the
response.  A further click on the pdf button changes nothing, while the word
button, rendered under the same condition, is clickable and its click posts
a request: it is the flag that stops the pdf click. -/
theorem C11_export_click_ignored_while_running_witness :
    pdfWaiting.st.exportLoading.get .pdf = true ∧
    pdfWaiting.st.generatedContent = some resultPartial ∧
    resultPartial.final_decision.isSome = true ∧
    pdfWaiting.inFlight = [pdfRequest resultPartial] ∧
    step pdfWaiting (.clickExport .pdf (.ok "bytes" 7)) = pdfWaiting ∧
    exportClickable pdfWaiting.st .word = true ∧
    (step pdfWaiting (.clickExport .word .failed)).inFlight
      = [pdfRequest resultPartial, wordRequest resultPartial] :=
  ⟨by decide, by decide, by decide, by decide,
   (C11_export_click_ignored_while_running .pdf pdfWaiting (.ok "bytes" 7) []
      (by decide)).2.1,
   by decide, by decide⟩

/-! ## C12, C13, C14: what an export posts, delivers and reports -/

theorem posts_append (l l' : List Effect) : posts (l ++ l') = posts l ++ posts l' := by
  induction l with
  | nil => rfl
  | cons e es ih => cases e <;> simp [posts, ih]

theorem downloads_append (l l' : List Effect) :
    downloads (l ++ l') = downloads l ++ downloads l' := by
  induction l with
  | nil => rfl
  | cons e es ih => cases e <;> simp [downloads, ih]

theorem alerts_append (l l' : List Effect) : alerts (l ++ l') = alerts l ++ alerts l' := by
  induction l with
  | nil => rfl
  | cons e es ih => cases e <;> simp [alerts, ih]

/-- C12: with a stored result `r`, `handleExportJSON` posts nothing, whatever
its outcome, and leaves the requests in flight alone; when its try block
completes it delivers exactly one file: the text `JSON.stringify(r, null, 2)`
with content type `application/json`, named `content_analysis_<now>.json`
where `now` is the value of `Date.now()`. -/
theorem C12_json_export_local (s : Sys) (r : GeneratedResult) (o : ExportOutcome)
    (data : String) (now : Nat) (h : s.st.generatedContent = some r) :
    posts (run s (handleExportJSON s.st.generatedContent o)).log = posts s.log ∧
    (run s (handleExportJSON s.st.generatedContent o)).inFlight = s.inFlight ∧
    downloads (run s (handleExportJSON s.st.generatedContent (.ok data now))).log
      = downloads s.log ++
        [{ content := .stringify r 2, type := "application/json",
           name := "content_analysis_" ++ toString now ++ ".json" }] := by
  rw [h]
  refine ⟨?_, ?_, ?_⟩
  · cases o <;> simp [handleExportJSON, exec, posts_append, posts]
  · cases o <;> simp [handleExportJSON, exec]
  · simp [handleExportJSON, exec, downloads_append, downloads]

/-- Witness of C12: the json export of the payload `{ content: "X" }` at
time 5. -/
theorem C12_json_export_local_witness :
    sysX.st.generatedContent = some resultX ∧
    downloads (run sysX (handleExportJSON sysX.st.generatedContent (.ok "" 5))).log
      = [{ content := .stringify resultX 2, type := "application/json",
           name := "content_analysis_5.json" }] :=
  ⟨by decide, (C12_json_export_local sysX resultX .failed "" 5 (by decide)).2.2⟩

/-- C13: with a stored result `r`, one call of `handleExportPDF` (resp.
`handleExportWord`) posts exactly one request, whatever its outcome: to
`/export/pdf` (resp. `/export/word`) with `r` itself as the body.  On a
successful response it delivers exactly one file: the bytes of the response
with content type `application/pdf` (resp. the wordprocessingml type), named
`content_report_<now>.pdf` (resp. `.docx`). -/
theorem C13_pdf_word_export (s : Sys) (r : GeneratedResult) (o : ExportOutcome)
    (data : String) (now : Nat) (h : s.st.generatedContent = some r) :
    posts (run s (handleExportPDF s.st.generatedContent o)).log
      = posts s.log ++ [{ url := "http://localhost:8000/export/pdf", body := .result r }] ∧
    posts (run s (handleExportWord s.st.generatedContent o)).log
      = posts s.log ++ [{ url := "http://localhost:8000/export/word", body := .result r }] ∧
    downloads (run s (handleExportPDF s.st.generatedContent (.ok data now))).log
      = downloads s.log ++
        [{ content := .bytes data, type := "application/pdf",
           name := "content_report_" ++ toString now ++ ".pdf" }] ∧
    downloads (run s (handleExportWord s.st.generatedContent (.ok data now))).log
      = downloads s.log ++
        [{ content := .bytes data,
           type := "application/vnd.openxmlformats-officedocument.wordprocessingml.document",
           name := "content_report_" ++ toString now ++ ".docx" }] := by
  rw [h]
  refine ⟨?_, ?_, ?_, ?_⟩
  · cases o <;>
      simp [handleExportPDF, handleExportPDFBegin, handleExportPDFResume, exec, posts_append,
        posts, pdfRequest, pdfUrl]
  · cases o <;>
      simp [handleExportWord, handleExportWordBegin, handleExportWordResume, exec, posts_append,
        posts, wordRequest, wordUrl]
  · simp [handleExportPDF, handleExportPDFBegin, handleExportPDFResume, exec, downloads_append,
      downloads]
  · simp [handleExportWord, handleExportWordBegin, handleExportWordResume, exec,
      downloads_append, downloads]

/-- Witness of C13: the pdf export of the payload `{ content: "X" }`, answered
with the bytes "bytes" at time 7. -/
theorem C13_pdf_word_export_witness :
    sysX.st.generatedContent = some resultX ∧
    posts (run sysX (handleExportPDF sysX.st.generatedContent (.ok "bytes" 7))).log
      = posts sysX.log ++
        [{ url := "http://localhost:8000/export/pdf", body := .result resultX }] ∧
    downloads (run sysX (handleExportPDF sysX.st.generatedContent (.ok "bytes" 7))).log
      = [{ content := .bytes "bytes", type := "application/pdf",
           name := "content_report_7.pdf" }] :=
  ⟨by decide,
   (C13_pdf_word_export sysX resultX (.ok "bytes" 7) "bytes" 7 (by decide)).1,
   (C13_pdf_word_export sysX resultX (.ok "bytes" 7) "bytes" 7 (by decide)).2.2.1⟩

/-- C14: with a stored result, a failing export of `f` shows exactly one
alert, "Failed to export PDF. Please try again." with "Word document" or
"JSON" in place of "PDF" for the other formats, and delivers no file; a
successful export shows no alert. -/
theorem C14_failure_notice (f : Format) (s : Sys) (r : GeneratedResult) (data : String)
    (now : Nat) (h : s.st.generatedContent = some r) :
    alerts (run s (exportHandler f s.st.generatedContent .failed)).log
      = alerts s.log ++ ["Failed to export " ++ formatLabel f ++ ". Please try again."] ∧
    downloads (run s (exportHandler f s.st.generatedContent .failed)).log = downloads s.log ∧
    alerts (run s (exportHandler f s.st.generatedContent (.ok data now))).log = alerts s.log ∧
    formatLabel .pdf = "PDF" ∧ formatLabel .word = "Word document" ∧
    formatLabel .json = "JSON" := by
  rw [h]
  refine ⟨?_, ?_, ?_, rfl, rfl, rfl⟩
  · cases f <;>
      simp [exportHandler, handleExportPDF, handleExportPDFBegin, handleExportPDFResume,
        handleExportWord, handleExportWordBegin, handleExportWordResume, handleExportJSON,
        exec, alerts_append, alerts, formatLabel]
  · cases f <;>
      simp [exportHandler, handleExportPDF, handleExportPDFBegin, handleExportPDFResume,
        handleExportWord, handleExportWordBegin, handleExportWordResume, handleExportJSON,
        exec, downloads_append, downloads]
  · cases f <;>
      simp [exportHandler, handleExportPDF, handleExportPDFBegin, handleExportPDFResume,
        handleExportWord, handleExportWordBegin, handleExportWordResume, handleExportJSON,
        exec, alerts_append, alerts]

/-- Witness of C14: a failing word export of the payload `{ content: "X" }`. -/
theorem C14_failure_notice_witness :
    sysX.st.generatedContent = some resultX ∧
    alerts (run sysX (exportHandler .word sysX.st.generatedContent .failed)).log
      = alerts sysX.log ++ ["Failed to export " ++ formatLabel .word ++ ". Please try again."] ∧
    "Failed to export " ++ formatLabel .word ++ ". Please try again."
      = "Failed to export Word document. Please try again." :=
  ⟨by decide, (C14_failure_notice .word sysX resultX "" 0 (by decide)).1, by decide⟩

/-! ## C15: the quality score -/

theorem pure_eq_ok {α : Type} (a : α) : (pure a : Except JsError α) = .ok a := rfl

theorem bind_ok {α β : Type} (a : α) (g : α → Except JsError β) :
    ((Except.ok a : Except JsError α) >>= g) = g a := rfl

/-- C15 fails at the score 0: for a complete payload whose `final_score` is 0
the guard of source line 498 is falsy, so the "Quality Assessment" box, which
would show "0.0%" and five empty stars, is not rendered; the bare number 0 is
rendered in its place.  At the score 0.82 the box shows "82.0%" and four
filled stars out of five. -/
theorem C15_zero_score_shows_no_box :
    renderScore (resultScored 0) = .ok (.number 0) ∧
    renderScore (resultScored 0) ≠ .ok (.box (scoreSection 0)) ∧
    (scoreSection 0).percent = "0.0%" ∧
    (scoreSection 0).stars = [false, false, false, false, false] ∧
    renderScore (resultScored (82 / 100)) = .ok (.box (scoreSection (82 / 100))) ∧
    (scoreSection (82 / 100)).percent = "82.0%" ∧
    (scoreSection (82 / 100)).stars = [true, true, true, true, false] ∧
    filledStars (82 / 100) = 4 := by
  have h0 : toDouble 0 = 0 := by simp [toDouble]
  have h : toDouble (82 / 100) ≠ 0 := by decide!
  refine ⟨?_, ?_, ?_, ?_, ?_, ?_, ?_, ?_⟩
  · simp [renderScore, resultScored, pure_eq_ok, h0]
  · simp [renderScore, resultScored, pure_eq_ok, h0]
  · decide!
  · decide!
  · simp [renderScore, resultScored, deref, h, pure_eq_ok, bind_ok]
  · decide!
  · decide!
  · decide!

/-! ## C16: the decision badge -/

/-- C16: `getDecisionColor` is a total function; it returns the emerald
classes for "Approved", the amber classes for "Needs Revision", the rose
classes for "Rejected" and the slate classes for every other value, the
missing one (`undefined`) included; the four class strings are pairwise
distinct, so every value falls in exactly one category. -/
theorem C16_getDecisionColor_categories (decision : Option String)
    (h₁ : decision ≠ some "Approved") (h₂ : decision ≠ some "Needs Revision")
    (h₃ : decision ≠ some "Rejected") :
    getDecisionColor (some "Approved") = "text-emerald-700 bg-emerald-100 border-emerald-200" ∧
    getDecisionColor (some "Needs Revision") = "text-amber-700 bg-amber-100 border-amber-200" ∧
    getDecisionColor (some "Rejected") = "text-rose-700 bg-rose-100 border-rose-200" ∧
    getDecisionColor decision = "text-slate-700 bg-slate-100 border-slate-200" ∧
    getDecisionColor none = "text-slate-700 bg-slate-100 border-slate-200" ∧
    [emeraldClasses, amberClasses, roseClasses, slateClasses].Nodup := by
  refine ⟨by decide, by decide, by decide, ?_, by decide, by decide⟩
  simp [getDecisionColor, h₁, h₂, h₃, slateClasses]

/-- Witness of C16: the value "Pending" is none of the three decisions. -/
theorem C16_getDecisionColor_categories_witness :
    getDecisionColor (some "Pending") = "text-slate-700 bg-slate-100 border-slate-200" :=
  (C16_getDecisionColor_categories (some "Pending") (by decide) (by decide) (by decide)).2.2.2.1

/-! ## C17, C18, C19: the sections of the result panel -/

/-- Rendering the data sections of a stored result never throws; each section
is a function of its own field. -/
theorem renderResult_eq (r : GeneratedResult) :
    renderResult r = .ok
      { decision := r.final_decision.map (fun fd =>
          { className := getDecisionColor fd.final_decision
            approvedIcon := fd.final_decision == some "Approved"
            label := fd.final_decision })
        body := bodySection r
        summary := (r.final_decision.bind (·.summary)).map summaryPoints
        score := scoreRender (r.final_decision.bind (·.final_score)) } := by
  obtain ⟨content, text_content, final_decision⟩ := r
  cases final_decision with
  | none => rfl
  | some fd =>
    obtain ⟨decision, summary, score⟩ := fd
    cases summary <;> cases score <;>
      simp [renderResult, renderDecision, renderSummary, renderScore, deref, scoreRender,
        pure_eq_ok, bind_ok] <;>
      split <;> simp_all [pure_eq_ok, bind_ok, scoreRender]

/-- C17: for results `r` and `r'` whose `final_decision` objects `fd` and
`fd'` are present (think of `fd'` as complete and of `fd` as lacking any of
its fields), rendering completes without an error, for the panel as a whole
too, and every section is determined by its own field.  The badge is always
rendered, with the classes, icon and label of the decision, in the neutral
slate classes with an empty label when the decision is missing.  A summary
that is present is rendered as its numbered points, a missing one gives no
section.  A score that is present is rendered as the "Quality Assessment" box
(as the bare number when it is 0, see C15), a missing one gives no section.
The body section does not depend on `final_decision`.  Hence a section of `r`
whose field has the same value as in `r'` is rendered identically. -/
theorem C17_partial_final_decision (st : State) (r r' : GeneratedResult)
    (fd fd' : FinalDecision) (hst : st.generatedContent = some r)
    (h : r.final_decision = some fd) (h' : r'.final_decision = some fd') :
    ∃ v v', renderResult r = .ok v ∧ renderResult r' = .ok v' ∧
      renderPanel st = .ok (some v) ∧
      v.decision = some { className := getDecisionColor fd.final_decision,
                          approvedIcon := fd.final_decision == some "Approved",
                          label := fd.final_decision } ∧
      (fd.final_decision = none →
        v.decision = some { className := "text-slate-700 bg-slate-100 border-slate-200",
                            approvedIcon := false, label := none }) ∧
      (∀ points, fd.summary = some points → v.summary = some (summaryPoints points)) ∧
      (fd.summary = none → v.summary = none) ∧
      (∀ x, fd.final_score = some x → toDouble x ≠ 0 → v.score = .box (scoreSection x)) ∧
      (∀ x, fd.final_score = some x → toDouble x = 0 → v.score = .number 0) ∧
      (fd.final_score = none → v.score = .nothing) ∧
      v.body = bodySection r ∧
      (fd.final_decision = fd'.final_decision → v.decision = v'.decision) ∧
      (fd.summary = fd'.summary → v.summary = v'.summary) ∧
      (fd.final_score = fd'.final_score → v.score = v'.score) := by
  refine ⟨_, _, renderResult_eq r, renderResult_eq r', ?_, ?_, ?_, ?_, ?_, ?_, ?_, ?_, rfl,
    ?_, ?_, ?_⟩
  · simp [renderPanel, hst, renderResult_eq, bind_ok, pure_eq_ok]
  · simp [h]
  · intro hd
    simp [h, hd, getDecisionColor, slateClasses]
  · intro points hs
    simp [h, hs]
  · intro hs
    simp [h, hs]
  · intro x hs hx
    simp [h, hs, hx, scoreRender]
  · intro x hs hx
    simp [h, hs, hx, scoreRender]
  · intro hs
    simp [h, hs, scoreRender]
  · intro hd
    simp [h, h', hd]
  · intro hs
    simp [h, h', hs]
  · intro hs
    simp [h, h', hs]

/-- Witness of C17: a final decision with only a summary, against a complete
one with the same summary: no error; the badge is rendered in the slate
classes without a label, the summary as its two numbered points, the body as
the text "X", and there is no score section; the complete payload gets the
same summary section and, for the score 1, the box with "100.0%". -/
theorem C17_partial_final_decision_witness :
    ∃ v v', renderResult resultPartial = .ok v ∧ renderResult (resultScored 1) = .ok v' ∧
      v.decision = some { className := "text-slate-700 bg-slate-100 border-slate-200",
                          approvedIcon := false, label := none } ∧
      v.summary = some [{ number := 1, text := "clear" }, { number := 2, text := "on topic" }] ∧
      v.score = .nothing ∧
      v.body = some "X" ∧
      v.summary = v'.summary ∧
      v'.score = .box { className := "text-emerald-600 bg-emerald-50", percent := "100.0%",
                        stars := [true, true, true, true, true] } :=
  match C17_partial_final_decision { State.initial with generatedContent := some resultPartial }
      resultPartial (resultScored 1)
      { final_decision := none, summary := some ["clear", "on topic"], final_score := none }
      { final_decision := some "Approved", summary := some ["clear", "on topic"],
        final_score := some 1 } rfl rfl rfl,
    C17_partial_final_decision { State.initial with generatedContent := some (resultScored 1) }
      (resultScored 1) resultPartial
      { final_decision := some "Approved", summary := some ["clear", "on topic"],
        final_score := some 1 }
      { final_decision := none, summary := some ["clear", "on topic"], final_score := none }
      rfl rfl rfl with
  | ⟨v, _, hv, _, _, _, hdecision, hsummary, _, _, _, hscore, hbody, _, _, _⟩,
    ⟨w, _, hw, _, _, _, _, hsummary', _, hbox, _, _, _, _, _, _⟩ =>
      ⟨v, w, hv, hw, hdecision rfl, (hsummary _ rfl).trans (by decide), hscore rfl,
       hbody.trans (by decide),
       (hsummary _ rfl).trans (hsummary' _ rfl).symm,
       (hbox 1 rfl (by decide!)).trans (by decide!)⟩

/-- C18: the text of the body section is `content` when `content` is present
and non-empty, and `text_content` otherwise; the section is shown exactly when
one of the two is non-empty, and then shows that text; a result with the text
`t` only under `text_content` gets the same section as one with `t` only under
`content`. -/
theorem C18_body_either_field (r : GeneratedResult) (c t : String)
    (final_decision : Option FinalDecision) (hc : r.content = some c) (hne : c ≠ "") :
    bodyText r = some c ∧
    bodySection r = some c ∧
    (∀ q : GeneratedResult, q.content = none ∨ q.content = some "" →
      bodyText q = q.text_content) ∧
    (∀ q : GeneratedResult,
      (bodySection q).isSome = (truthy q.content || truthy q.text_content)) ∧
    (∀ q : GeneratedResult, ∀ v, bodySection q = some v → bodyText q = some v) ∧
    (∀ q : GeneratedResult, ∃ v, renderResult q = .ok v ∧ v.body = bodySection q) ∧
    bodySection { content := none, text_content := some t, final_decision := final_decision }
      = bodySection { content := some t, text_content := none,
                      final_decision := final_decision } := by
  refine ⟨?_, ?_, ?_, ?_, ?_, ?_, ?_⟩
  · simp [bodyText, jsOr, truthy, hc, hne]
  · simp [bodySection, bodyText, jsOr, truthy, hc, hne]
  · intro q hq
    rcases hq with hq | hq <;> simp [bodyText, jsOr, truthy, hq]
  · intro q
    have hsome : ∀ x : Option String, truthy x = true → x.isSome = true := by
      intro x hx
      cases x with
      | none => simp [truthy] at hx
      | some v => rfl
    unfold bodySection bodyText jsOr
    cases hq : truthy q.content <;> cases hq' : truthy q.text_content <;>
      simp [hq, hq', hsome]
  · intro q v hv
    unfold bodySection at hv
    split at hv
    · exact hv
    · cases hv
  · intro q
    exact ⟨_, renderResult_eq q, rfl⟩
  · by_cases ht : t = "" <;> simp [bodySection, bodyText, jsOr, truthy, ht]

/-- Witness of C18: the payload `{ content: "X" }`. -/
theorem C18_body_either_field_witness :
    resultX.content = some "X" ∧ bodySection resultX = some "X" :=
  ⟨rfl, (C18_body_either_field resultX "X" "" none rfl (by decide)).2.1⟩

/-- C19: for a summary of `n` findings the section has exactly `n` points;
the point at position `i` (counted from 0) carries the number `i + 1` and the
text of the finding at position `i`; the section is rendered without an error,
for the empty summary with zero points. -/
theorem C19_summary_points (r : GeneratedResult) (fd : FinalDecision)
    (summary : List String) (i : Nat) (h : r.final_decision = some fd)
    (hs : fd.summary = some summary) :
    (summaryPoints summary).length = summary.length ∧
    (summaryPoints summary)[i]?
      = summary[i]?.map (fun point => { number := i + 1, text := point }) ∧
    renderSummary r = .ok (some (summaryPoints summary)) ∧
    summaryPoints [] = [] := by
  refine ⟨?_, ?_, ?_, rfl⟩
  · simp [summaryPoints]
  · simp [summaryPoints]
  · simp [renderSummary, h, hs, deref, pure_eq_ok, bind_ok]

/-- Witness of C19: a summary of two findings, and the empty summary. -/
theorem C19_summary_points_witness :
    summaryPoints ["clear", "on topic"]
      = [{ number := 1, text := "clear" }, { number := 2, text := "on topic" }] ∧
    renderSummary resultPartial = .ok (some (summaryPoints ["clear", "on topic"])) ∧
    renderSummary { content := none, text_content := none,
                    final_decision := some { final_decision := none, summary := some [],
                                             final_score := none } }
      = .ok (some []) :=
  ⟨by decide,
   (C19_summary_points resultPartial
      { final_decision := none, summary := some ["clear", "on topic"], final_score := none }
      ["clear", "on topic"] 0 rfl rfl).2.2.1,
   (C19_summary_points
      { content := none, text_content := none,
        final_decision := some { final_decision := none, summary := some [],
                                 final_score := none } }
      { final_decision := none, summary := some [], final_score := none }
      [] 0 rfl rfl).2.2.1⟩

/-! ## C20: result and error exclude each other -/

/-- A state with the same three session cells satisfies the exclusion too. -/
theorem resultErrorExclusive_of_cells (st st' : State) (hg : st'.isGenerating = st.isGenerating)
    (hc : st'.generatedContent = st.generatedContent) (he : st'.error = st.error)
    (h : resultErrorExclusive st) : resultErrorExclusive st' := by
  unfold resultErrorExclusive at h ⊢
  rw [hg, hc, he]
  exact h

/-- The first segment of an export handler leaves the session cells and the
generation requests in flight alone. -/
theorem exportHandlerBegin_session (s : Sys) (f : Format) (gc : Option GeneratedResult)
    (o : ExportOutcome) :
    (run s (exportHandlerBegin f gc o)).st.isGenerating = s.st.isGenerating ∧
    (run s (exportHandlerBegin f gc o)).st.generatedContent = s.st.generatedContent ∧
    (run s (exportHandlerBegin f gc o)).st.error = s.st.error ∧
    inFlightGenerate (run s (exportHandlerBegin f gc o)) = inFlightGenerate s := by
  cases gc with
  | none => simp [exportHandlerBegin]
  | some r =>
    cases f
    · simp [exportHandlerBegin, handleExportPDFBegin, exec, inFlightGenerate,
        List.filter_append, pdfRequest, generateUrl_ne_pdfUrl]
    · simp [exportHandlerBegin, handleExportWordBegin, exec, inFlightGenerate,
        List.filter_append, wordRequest, generateUrl_ne_wordUrl]
    · cases o <;> simp [exportHandlerBegin, handleExportJSON, exec, inFlightGenerate]

/-- The continuation of an export handler leaves the session cells alone. -/
theorem resumeExport_session (s : Sys) (request : Request) (o : ExportOutcome) :
    (resumeExport s request o).st.isGenerating = s.st.isGenerating ∧
    (resumeExport s request o).st.generatedContent = s.st.generatedContent ∧
    (resumeExport s request o).st.error = s.st.error := by
  obtain ⟨url, body⟩ := request
  cases body with
  | generate rd => simp [resumeExport]
  | result r =>
    simp only [resumeExport]
    by_cases hu : url = pdfUrl
    · rw [if_pos hu]
      cases o <;> simp [handleExportPDFResume, exec]
    · rw [if_neg hu]
      by_cases hv : url = wordUrl
      · rw [if_pos hv]
        cases o <;> simp [handleExportWordResume, exec]
      · rw [if_neg hv]
        simp

/-- The continuation of `handleSubmit`, resumed for a request in flight while
the session invariant holds, keeps result and error exclusive. -/
theorem resultErrorExclusive_resumeGenerate (s : Sys) (request : Request)
    (o : GenerateOutcome) (hm : request ∈ s.inFlight) (hinv : sessionInv s)
    (hex : resultErrorExclusive s.st) : resultErrorExclusive (resumeGenerate s request o).st := by
  unfold resumeGenerate
  by_cases hu : request.url = generateUrl
  · rw [if_pos hu]
    have hlen := inFlightGenerate_erase_self s request hm hu
    unfold sessionInv at hinv
    have hgen : s.st.isGenerating = true := by
      cases hg : s.st.isGenerating with
      | true => rfl
      | false => rw [hg] at hinv; simp only [Bool.toNat_false] at hinv; omega
    obtain ⟨hc, he⟩ := hex.2 hgen
    cases o <;> simp [handleSubmitResume, exec, resultErrorExclusive, hc, he]
  · rw [if_neg hu]
    exact hex

/-- Every event of the rendered page keeps result and error exclusive. -/
theorem resultErrorExclusive_step (s : Sys) (e : Event) (hinv : sessionInv s)
    (hex : resultErrorExclusive s.st) : resultErrorExclusive (step s e).st := by
  cases e with
  | editForm fd => exact resultErrorExclusive_of_cells s.st _ rfl rfl rfl hex
  | submitForm =>
    simp only [step]
    by_cases hs : formSubmits s.st = true
    · rw [if_pos hs]
      simp [handleSubmitBegin, exec, resultErrorExclusive]
    · rw [if_neg hs]
      exact hex
  | settleGenerate i o =>
    simp only [step]
    cases hreq : s.inFlight[i]? with
    | none => exact hex
    | some request =>
      exact resultErrorExclusive_resumeGenerate s request o (List.getElem?_mem hreq) hinv hex
  | clickExport f o =>
    simp only [step]
    by_cases hc : exportClickable s.st f = true
    · rw [if_pos hc]
      have hb := exportHandlerBegin_session s f s.st.generatedContent o
      exact resultErrorExclusive_of_cells s.st _ hb.1 hb.2.1 hb.2.2.1 hex
    · rw [if_neg hc]
      exact hex
  | settleExport i o =>
    simp only [step]
    cases hreq : s.inFlight[i]? with
    | none => exact hex
    | some request =>
      have hb := resumeExport_session s request o
      exact resultErrorExclusive_of_cells s.st _ hb.1 hb.2.1 hb.2.2 hex

/-- One action that leaves at most one generation request in flight preserves
the session invariant and the exclusion of result and error. -/
theorem sessionExclusive_act (s : Sys) (a : Action) (hinv : sessionInv s)
    (hex : resultErrorExclusive s.st) (hle : (inFlightGenerate (act s a)).length ≤ 1) :
    sessionInv (act s a) ∧ resultErrorExclusive (act s a).st := by
  cases a with
  | event e => exact ⟨sessionInv_step s e hinv, resultErrorExclusive_step s e hinv hex⟩
  | callHandleSubmit =>
    simp only [act] at hle ⊢
    unfold sessionInv at hinv ⊢
    simp [handleSubmitBegin, exec, inFlightGenerate, List.filter_append, generateRequest]
      at hle ⊢
    simp only [inFlightGenerate, List.length_eq_zero] at hinv
    exact ⟨hle, by simp [resultErrorExclusive]⟩
  | callExport f o =>
    simp only [act]
    have hb := exportHandlerBegin_session s f s.st.generatedContent o
    refine ⟨?_, resultErrorExclusive_of_cells s.st _ hb.1 hb.2.1 hb.2.2.1 hex⟩
    unfold sessionInv at hinv ⊢
    rw [hb.2.2.2, hb.1]
    exact hinv

theorem play_append (actions : List Action) (a : Action) :
    play (actions ++ [a]) = act (play actions) a := by
  simp [play, List.foldl_append]

/-- In a run with at most one submission in flight at any time, the session
invariant and the exclusion hold after every number of actions. -/
theorem sessionExclusive_take (actions : List Action) (h : singleFlight actions) (k : Nat) :
    sessionInv (play (actions.take k)) ∧ resultErrorExclusive (play (actions.take k)).st := by
  induction k with
  | zero =>
    refine ⟨by simpa [play] using sessionInv_initial, ?_⟩
    simp [play, resultErrorExclusive, Sys.initial, State.initial]
  | succ k ih =>
    have hk := h (k + 1)
    rw [List.take_succ] at hk ⊢
    cases ha : actions[k]? with
    | none => simpa [ha] using ih
    | some a =>
      rw [ha] at hk
      simp only [Option.toList] at hk ⊢
      rw [play_append] at hk ⊢
      exact sessionExclusive_act _ a ih.1 ih.2 hk

/-- C20: in every state reached by a run in which at most one submission is in
flight at any time, also when `handleSubmit` and the export handlers are
called directly, the stored result and the stored error are not both
non-null, and both are null while `isGenerating` is set.  Every session driven
through the form and the buttons is such a run. -/
theorem C20_result_error_exclusive (actions : List Action) (events : List Event)
    (h : singleFlight actions) :
    ¬ ((play actions).st.generatedContent ≠ none ∧ (play actions).st.error ≠ none) ∧
    ((play actions).st.isGenerating = true →
      (play actions).st.generatedContent = none ∧ (play actions).st.error = none) ∧
    singleFlight (events.map .event) ∧
    play (events.map .event) = reach events ∧
    ¬ ((reach events).st.generatedContent ≠ none ∧ (reach events).st.error ≠ none) ∧
    ((reach events).st.isGenerating = true →
      (reach events).st.generatedContent = none ∧ (reach events).st.error = none) := by
  have hplay : ∀ es : List Event, play (es.map .event) = reach es := by
    intro es
    simp [play, reach, List.foldl_map, act]
  have hsingle : singleFlight (events.map .event) := by
    intro k
    rw [← List.map_take, hplay]
    have hinv := sessionInv_reach (events.take k)
    unfold sessionInv at hinv
    rw [hinv]
    cases (reach (events.take k)).st.isGenerating <;> simp
  have h₁ := (sessionExclusive_take actions h actions.length).2
  have h₂ := (sessionExclusive_take (events.map Action.event) hsingle
    (events.map Action.event).length).2
  rw [List.take_length] at h₁ h₂
  rw [hplay] at h₂
  exact ⟨h₁.1, h₁.2, hsingle, hplay events, h₂.1, h₂.2⟩

/-- Witness of C20: a failed direct call followed by a successful submission
of the form; the error of the first is gone when the result of the second is
stored. -/
theorem C20_result_error_exclusive_witness :
    singleFlight soloRun ∧
    (play (soloRun.take 2)).st.error = some fallbackMessage ∧
    (play soloRun).st.generatedContent = some resultX ∧
    ¬ ((play soloRun).st.generatedContent ≠ none ∧ (play soloRun).st.error ≠ none) := by
  have hsolo : singleFlight soloRun := by
    intro k
    rcases k with _ | _ | _ | _ | _ | k
    · decide
    · decide
    · decide
    · decide
    · decide
    · have htake : soloRun.take (k + 1 + 1 + 1 + 1 + 1) = soloRun := by
        apply List.take_of_length_le
        simp [soloRun]
      rw [htake]
      decide
  exact ⟨hsolo, by decide, by decide, (C20_result_error_exclusive soloRun [] hsolo).1⟩

/-! ## C21: handleInputChange -/

theorem propGet_propSet_self {β : Type} (key : String) (value : β) (l : List (String × β)) :
    propGet key (propSet key value l) = some value := by
  induction l with
  | nil => simp [propSet, propGet]
  | cons kv rest ih =>
    obtain ⟨k, v⟩ := kv
    by_cases hk : k = key
    · simp [propSet, propGet, hk]
    · simp [propSet, propGet, hk, ih]

theorem propGet_propSet_other {β : Type} (key other : String) (value : β)
    (l : List (String × β)) (h : other ≠ key) :
    propGet other (propSet key value l) = propGet other l := by
  induction l with
  | nil => simp [propSet, propGet, Ne.symm h]
  | cons kv rest ih =>
    obtain ⟨k, v⟩ := kv
    by_cases hk : k = key
    · subst hk
      simp [propSet, propGet, Ne.symm h]
    · by_cases ho : k = other
      · subst ho
        simp [propSet, propGet, h]
      · simp [propSet, propGet, hk, ho, ih]

/-- A name without a dot splits into itself. -/
theorem splitOnDot_no_dot (cs : List Char) (h : '.' ∉ cs) : splitOnDot cs = [cs] := by
  induction cs with
  | nil => rfl
  | cons c cs ih =>
    have hc : c ≠ '.' := fun hc => h (by simp [hc])
    have hcs : '.' ∉ cs := fun hm => h (List.mem_cons_of_mem c hm)
    simp [splitOnDot, hc, ih hcs]

/-- The first part of a split ends at the first dot. -/
theorem splitOnDot_first_dot (p cs : List Char) (h : '.' ∉ p) :
    splitOnDot (p ++ '.' :: cs) = p :: splitOnDot cs := by
  induction p with
  | nil => simp [splitOnDot]
  | cons c p ih =>
    have hc : c ≠ '.' := fun hc => h (by simp [hc])
    have hp : '.' ∉ p := fun hm => h (List.mem_cons_of_mem c hm)
    simp [splitOnDot, hc, ih hp]

/-- The updater for a name `parent.child` with one dot. -/
theorem handleInputChange_dotted (parent child value : String) (prev : FormObject)
    (hp : '.' ∉ parent.data) (hc : '.' ∉ child.data) :
    handleInputChange (parent ++ "." ++ child) value prev
      = propSet parent
          (.group (propSet child value (spreadProps (propGet parent prev)))) prev := by
  have hdata : (parent ++ "." ++ child).data = parent.data ++ '.' :: child.data := by simp
  have hmem : '.' ∈ (parent ++ "." ++ child).data := by simp [hdata]
  unfold handleInputChange
  rw [if_pos hmem, hdata, splitOnDot_first_dot _ _ hp, splitOnDot_no_dot _ hc]
  rfl

/-- The updater for a name without a dot. -/
theorem handleInputChange_plain (name value : String) (prev : FormObject)
    (h : '.' ∉ name.data) :
    handleInputChange name value prev = propSet name (.text value) prev := by
  unfold handleInputChange
  rw [if_neg h]

/-- C21: `handleInputChange` changes one field.  For a name `parent.child`
(one dot) the new `formData[parent]` is an object whose `child` is the new
value and whose other properties are those of the old `formData[parent]`, and
every other top-level property is as before.  For a name without a dot the
new `formData[name]` is the new value and every other top-level property
(`style_guide` too, when it is another one) is as before.  For the four inputs
of the form the updater is the replacement of that one field of the form
record, and the handler leaves `isGenerating`, the result, the error, the
export flags, the log and the requests in flight as they are. -/
theorem C21_handleInputChange_one_field (prev : FormObject)
    (parent child name value key : String) (s : Sys) (input : Input)
    (hp : '.' ∉ parent.data) (hc : '.' ∉ child.data) (hn : '.' ∉ name.data) :
    (∃ props,
      propGet parent (handleInputChange (parent ++ "." ++ child) value prev)
        = some (.group props) ∧
      propGet child props = some value ∧
      (key ≠ child → propGet key props = propGet key (spreadProps (propGet parent prev)))) ∧
    (key ≠ parent →
      propGet key (handleInputChange (parent ++ "." ++ child) value prev) = propGet key prev) ∧
    propGet name (handleInputChange name value prev) = some (.text value) ∧
    (key ≠ name → propGet key (handleInputChange name value prev) = propGet key prev) ∧
    handleInputChange input.name value s.st.formData.toObject
      = (s.st.formData.withInput input value).toObject ∧
    (inputChanged s input value).st.formData = s.st.formData.withInput input value ∧
    (inputChanged s input value).st.isGenerating = s.st.isGenerating ∧
    (inputChanged s input value).st.generatedContent = s.st.generatedContent ∧
    (inputChanged s input value).st.error = s.st.error ∧
    (inputChanged s input value).st.exportLoading = s.st.exportLoading ∧
    (inputChanged s input value).log = s.log ∧
    (inputChanged s input value).inFlight = s.inFlight := by
  rw [handleInputChange_dotted parent child value prev hp hc,
    handleInputChange_plain name value prev hn]
  refine ⟨⟨_, propGet_propSet_self _ _ _, propGet_propSet_self _ _ _, ?_⟩, ?_, ?_, ?_, ?_,
    rfl, rfl, rfl, rfl, rfl, rfl, rfl⟩
  · intro hk
    exact propGet_propSet_other _ _ _ _ hk
  · intro hk
    exact propGet_propSet_other _ _ _ _ hk
  · exact propGet_propSet_self _ _ _
  · intro hk
    exact propGet_propSet_other _ _ _ _ hk
  · cases input <;> rfl

/-- Witness of C21: on the initial form, the name "style_guide.tone" sets the
tone and keeps the length, and the name "topic" sets the topic and keeps the
`style_guide` record. -/
theorem C21_handleInputChange_one_field_witness :
    propGet "style_guide"
        (handleInputChange ("style_guide" ++ "." ++ "tone") "casual" State.initial.formData.toObject)
      = some (.group [("tone", "casual"), ("length", "medium")]) ∧
    propGet "topic" (handleInputChange "topic" "cats" State.initial.formData.toObject)
      = some (.text "cats") ∧
    propGet "style_guide" (handleInputChange "topic" "cats" State.initial.formData.toObject)
      = propGet "style_guide" State.initial.formData.toObject :=
  ⟨by decide,
   (C21_handleInputChange_one_field State.initial.formData.toObject "style_guide" "tone"
      "topic" "cats" "style_guide" Sys.initial .topic (by decide) (by decide) (by decide)).2.2.1,
   (C21_handleInputChange_one_field State.initial.formData.toObject "style_guide" "tone"
      "topic" "cats" "style_guide" Sys.initial .topic (by decide) (by decide)
      (by decide)).2.2.2.1 (by decide)⟩

/-! ## C22: getScoreColor -/

/-- C22: `getScoreColor` returns the emerald classes for every score of at
least 80, the amber classes for every score from 60 up to but not including
80, and the rose classes for every score below 60; in the order rose, amber,
emerald the class never goes down when the score goes up; the "Quality
Assessment" box, when it is rendered (the score is not 0), takes its classes
from `getScoreColor(final_score * 100)`, where the product is the product of
doubles: the score written 0.7999999999999999, whose product with 100 rounds
to 80, gets the emerald classes although 79.99999999999999 would get the amber
ones, and the score 0.82 gets the emerald classes of 82. -/
theorem C22_getScoreColor_thresholds (x y v : ℚ) (r : GeneratedResult) (fd : FinalDecision)
    (hxy : x ≤ y) (hr : r.final_decision = some fd) (hv : fd.final_score = some v)
    (hv0 : toDouble v ≠ 0) :
    (80 ≤ x → getScoreColor x = "text-emerald-600 bg-emerald-50") ∧
    (60 ≤ x → x < 80 → getScoreColor x = "text-amber-600 bg-amber-50") ∧
    (x < 60 → getScoreColor x = "text-rose-600 bg-rose-50") ∧
    scoreRank (getScoreColor x) ≤ scoreRank (getScoreColor y) ∧
    (scoreSection v).className = getScoreColor (fmul (toDouble v) 100) ∧
    renderScore r = .ok (.box (scoreSection v)) ∧
    fmul (toDouble (7999999999999999 / 10000000000000000)) 100 = 80 ∧
    (scoreSection (7999999999999999 / 10000000000000000)).className
      = "text-emerald-600 bg-emerald-50" ∧
    getScoreColor (7999999999999999 / 10000000000000000 * 100) = "text-amber-600 bg-amber-50" ∧
    (scoreSection (82 / 100)).className = "text-emerald-600 bg-emerald-50" := by
  refine ⟨?_, ?_, ?_, ?_, rfl, ?_, by decide!, by decide!, by decide!, by decide!⟩
  · intro h
    simp [getScoreColor, h]
  · intro h60 h80
    simp [getScoreColor, h60, not_le.mpr h80]
  · intro h
    have h80 : ¬ 80 ≤ x := by
      intro h'
      linarith
    simp [getScoreColor, not_le.mpr h, h80]
  · unfold getScoreColor
    by_cases hx80 : x ≥ 80
    · have hy80 : y ≥ 80 := le_trans hx80 hxy
      simp [hx80, hy80]
    · by_cases hx60 : x ≥ 60
      · have hy60 : y ≥ 60 := le_trans hx60 hxy
        by_cases hy80 : y ≥ 80 <;> simp [hx80, hx60, hy60, hy80, scoreRank]
      · by_cases hy80 : y ≥ 80
        · simp [hx80, hx60, hy80, scoreRank]
        · by_cases hy60 : y ≥ 60 <;> simp [hx80, hx60, hy80, hy60, scoreRank]
  · simp [renderScore, hr, hv, hv0, deref, pure_eq_ok, bind_ok]

/-- Witness of C22: the scores 59 and 80, and the payload with the score
written 0.8205, whose box is rendered in the emerald classes with the text
"82.0%" (the double product is 82.04999999999999). -/
theorem C22_getScoreColor_thresholds_witness :
    getScoreColor 80 = "text-emerald-600 bg-emerald-50" ∧
    getScoreColor 59 = "text-rose-600 bg-rose-50" ∧
    scoreRank (getScoreColor 59) ≤ scoreRank (getScoreColor 80) ∧
    renderScore (resultScored (8205 / 10000))
      = .ok (.box { className := "text-emerald-600 bg-emerald-50", percent := "82.0%",
                    stars := [true, true, true, true, false] }) :=
  ⟨(C22_getScoreColor_thresholds 80 80 (8205 / 10000) (resultScored (8205 / 10000))
      { final_decision := some "Approved", summary := some ["clear", "on topic"],
        final_score := some (8205 / 10000) } (by norm_num) rfl rfl (by decide!)).1
      (by norm_num),
   (C22_getScoreColor_thresholds 59 80 (8205 / 10000) (resultScored (8205 / 10000))
      { final_decision := some "Approved", summary := some ["clear", "on topic"],
        final_score := some (8205 / 10000) } (by norm_num) rfl rfl (by decide!)).2.2.1
      (by norm_num),
   (C22_getScoreColor_thresholds 59 80 (8205 / 10000) (resultScored (8205 / 10000))
      { final_decision := some "Approved", summary := some ["clear", "on topic"],
        final_score := some (8205 / 10000) } (by norm_num) rfl rfl (by decide!)).2.2.2.1,
   ((C22_getScoreColor_thresholds 59 80 (8205 / 10000) (resultScored (8205 / 10000))
      { final_decision := some "Approved", summary := some ["clear", "on topic"],
        final_score := some (8205 / 10000) } (by norm_num) rfl rfl (by decide!)).2.2.2.2.2.1).trans
     (congrArg (fun b => Except.ok (ScoreRender.box b)) (by decide!))⟩

end ContentGeneration
